import Mathlib

/-!
# FreshPlayerPlugin `src/tables.c`: registries and display lifecycle

A shallow embedding of `tables.c`.  Pointers are natural numbers with `0`
standing for `NULL`.  The two GLib hash tables are represented by their entries
in iteration order; every critical section (`pthread_mutex_lock(&lock)` ...
`pthread_mutex_unlock(&lock)`) is one atomic step on the process state.
-/

namespace Tables

/-- Untyped pointer (`gpointer`, `void *`); `0` is `NULL`. -/
abbrev Ptr := Nat

/-- The null pointer. -/
abbrev NULL : Ptr := 0

/-- `PP_Instance` is `int32_t`. -/
abbrev PP_Instance := Int

/-! ## GLib hash table (`g_direct_hash`, `g_direct_equal`) -/

/-- A `GHashTable` given by its entries `(key, value)` in iteration order. -/
abbrev GHashTable (κ : Type) := List (κ × Ptr)

/-- `g_hash_table_new`: the empty table. -/
def g_hash_table_new {κ : Type} : GHashTable κ := []

/-- `g_hash_table_lookup`: the value stored for `key`, `NULL` when the key is absent. -/
def g_hash_table_lookup {κ : Type} [DecidableEq κ] : GHashTable κ → κ → Ptr
  | [], _ => NULL
  | (k, v) :: rest, key => if k = key then v else g_hash_table_lookup rest key

/-- `g_hash_table_contains`: whether some entry has this key. -/
def g_hash_table_contains {κ : Type} [DecidableEq κ] : GHashTable κ → κ → Bool
  | [], _ => false
  | (k, _) :: rest, key => if k = key then true else g_hash_table_contains rest key

/-- `g_hash_table_replace`: overwrite the entry of an existing key in place, or add a
new entry. -/
def g_hash_table_replace {κ : Type} [DecidableEq κ] : GHashTable κ → κ → Ptr → GHashTable κ
  | [], key, value => [(key, value)]
  | (k, v) :: rest, key, value =>
    if k = key then (key, value) :: rest else (k, v) :: g_hash_table_replace rest key value

/-- `g_hash_table_insert`: as `g_hash_table_replace` except that an existing key object is
kept; with `g_direct_equal` the old and the new key are the same value. -/
def g_hash_table_insert {κ : Type} [DecidableEq κ] : GHashTable κ → κ → Ptr → GHashTable κ
  | [], key, value => [(key, value)]
  | (k, v) :: rest, key, value =>
    if k = key then (k, value) :: rest else (k, v) :: g_hash_table_insert rest key value

/-- `g_hash_table_remove`: drop the entry of `key`, if any. -/
def g_hash_table_remove {κ : Type} [DecidableEq κ] : GHashTable κ → κ → GHashTable κ
  | [], _ => []
  | (k, v) :: rest, key =>
    if k = key then g_hash_table_remove rest key else (k, v) :: g_hash_table_remove rest key

/-! ## Process state of the registries -/

/-- Wrap an integer into the range of `int32_t`. -/
def int32_wrap (v : Int) : Int := (v + 2147483648) % 4294967296 - 2147483648

/-- The file-scope statics of `tables.c` used by the registries: the two hash tables and
the function-local `static int32_t instance_id`.  The key `GINT_TO_POINTER(instance)` of
`pp_to_np_ht` is an injective image of the 32-bit id, so the table is keyed by the id. -/
structure State where
  pp_to_np_ht : GHashTable PP_Instance
  npobj_to_npp_ht : GHashTable Ptr
  instance_id : Int
  deriving DecidableEq, Repr

/-- State after `constructor_tables` (both tables empty, `instance_id = 10`). -/
def constructor_tables : State :=
  { pp_to_np_ht := g_hash_table_new, npobj_to_npp_ht := g_hash_table_new, instance_id := 10 }

/-- `tables_get_pp_instance`. -/
def tables_get_pp_instance (s : State) (inst : PP_Instance) : State × Ptr :=
  let pp_i := g_hash_table_lookup s.pp_to_np_ht inst
  (s, pp_i)

/-- `tables_add_pp_instance`. -/
def tables_add_pp_instance (s : State) (inst : PP_Instance) (pp_i : Ptr) : State :=
  { s with pp_to_np_ht := g_hash_table_replace s.pp_to_np_ht inst pp_i }

/-- `tables_remove_pp_instance`. -/
def tables_remove_pp_instance (s : State) (inst : PP_Instance) : State :=
  { s with pp_to_np_ht := g_hash_table_remove s.pp_to_np_ht inst }

/-- The loop of `tables_get_some_pp_instance` over the remaining entries; `npp_of p` is
the memory read `p->npp`. -/
def get_some_loop (npp_of : Ptr → Ptr) : List (PP_Instance × Ptr) → Ptr → Ptr
  | [], result => result
  | (_, value) :: rest, result =>
    let pp_i := value
    if pp_i ≠ NULL ∧ npp_of pp_i ≠ NULL then get_some_loop npp_of rest value
    else get_some_loop npp_of rest result

/-- `tables_get_some_pp_instance`. -/
def tables_get_some_pp_instance (npp_of : Ptr → Ptr) (s : State) : State × Ptr :=
  let result := NULL
  (s, get_some_loop npp_of s.pp_to_np_ht result)

/-- `tables_add_npobj_npp_mapping`. -/
def tables_add_npobj_npp_mapping (s : State) (npobj : Ptr) (npp : Ptr) : State :=
  { s with npobj_to_npp_ht := g_hash_table_insert s.npobj_to_npp_ht npobj npp }

/-- `tables_get_npobj_npp_mapping`. -/
def tables_get_npobj_npp_mapping (s : State) (npobj : Ptr) : State × Ptr :=
  let npp := g_hash_table_lookup s.npobj_to_npp_ht npobj
  (s, npp)

/-- `tables_remove_npobj_npp_mapping`. -/
def tables_remove_npobj_npp_mapping (s : State) (npobj : Ptr) : State :=
  { s with npobj_to_npp_ht := g_hash_table_remove s.npobj_to_npp_ht npobj }

/-- `tables_generate_new_pp_instance_id`: `result = instance_id++` on an `int32_t`. -/
def tables_generate_new_pp_instance_id (s : State) : State × PP_Instance :=
  let result := s.instance_id
  ({ s with instance_id := int32_wrap (s.instance_id + 1) }, result)

/-- The values returned by `n` successive calls of `tables_generate_new_pp_instance_id`. -/
def generate_ids : Nat → State → List PP_Instance
  | 0, _ => []
  | n + 1, s =>
    let r := tables_generate_new_pp_instance_id s
    r.2 :: generate_ids n r.1

/-- A call on the instance registry. -/
inductive RegistryCall where
  | add (inst : PP_Instance) (pp_i : Ptr)
  | remove (inst : PP_Instance)
  deriving DecidableEq, Repr

/-- The instance id a registry call is about. -/
def RegistryCall.inst : RegistryCall → PP_Instance
  | .add i _ => i
  | .remove i => i

/-- Perform one registry call. -/
def RegistryCall.run (s : State) : RegistryCall → State
  | .add i p => tables_add_pp_instance s i p
  | .remove i => tables_remove_pp_instance s i

/-- Perform a sequence of registry calls, first call first. -/
def run_calls (s : State) (calls : List RegistryCall) : State :=
  calls.foldl RegistryCall.run s

/-! ## Display state -/

/-- Function ids passed to `get_proc_helper` by `initialize_vdpau` (`VDP_FUNC_ID_*`). -/
inductive VdpFuncId where
  | GET_ERROR_STRING
  | GET_INFORMATION_STRING
  | DEVICE_DESTROY
  | DECODER_CREATE
  | DECODER_DESTROY
  | DECODER_RENDER
  | VIDEO_SURFACE_CREATE
  | VIDEO_SURFACE_DESTROY
  | PRESENTATION_QUEUE_TARGET_CREATE_X11
  | PRESENTATION_QUEUE_TARGET_DESTROY
  | PRESENTATION_QUEUE_CREATE
  | PRESENTATION_QUEUE_DESTROY
  | PRESENTATION_QUEUE_DISPLAY
  | OUTPUT_SURFACE_CREATE
  | OUTPUT_SURFACE_DESTROY
  | VIDEO_MIXER_CREATE
  | VIDEO_MIXER_DESTROY
  | VIDEO_MIXER_RENDER
  deriving DecidableEq, Repr

/-- `VDP_STATUS_OK` of `vdpau.h`. -/
def VDP_STATUS_OK : Int := 0

/-- `VDP_INVALID_HANDLE` of `vdpau.h`. -/
def VDP_INVALID_HANDLE : Nat := 4294967295

/-- `VA_STATUS_SUCCESS` of `va.h`. -/
def VA_STATUS_SUCCESS : Int := 0

/-- `(uint32_t)-1`. -/
def UINT32_MAX : Nat := 4294967295

/-- `PictStandardARGB32` of `Xrender.h`. -/
def PictStandardARGB32 : Nat := 0

/-- `PictStandardRGB24` of `Xrender.h`. -/
def PictStandardRGB24 : Nat := 1

/-- Conversion of a C `int` to `uint32_t`. -/
def to_uint32 (v : Int) : Nat := (v % 4294967296).toNat

/-- The fields of `struct display_s` that `tables.c` touches.  `lock_live` and `lock_held`
stand for `display.lock` (whether it is initialised, and how often it is held);
`mutex_attr_live` and `mutex_attr_recursive` stand for `display.mutex_attr_recursive`. -/
structure display_s where
  x : Ptr
  dri_fd : Int
  va : Ptr
  va_available : Int
  vdpau_available : Int
  vdp_device : Nat
  vdp_get_proc_address : Ptr
  vdp_get_error_string : Ptr
  vdp_get_information_string : Ptr
  vdp_device_destroy : Ptr
  vdp_decoder_create : Ptr
  vdp_decoder_destroy : Ptr
  vdp_decoder_render : Ptr
  vdp_video_surface_create : Ptr
  vdp_video_surface_destroy : Ptr
  vdp_presentation_queue_target_create_x11 : Ptr
  vdp_presentation_queue_target_destroy : Ptr
  vdp_presentation_queue_create : Ptr
  vdp_presentation_queue_destroy : Ptr
  vdp_presentation_queue_display : Ptr
  vdp_output_surface_create : Ptr
  vdp_output_surface_destroy : Ptr
  vdp_video_mixer_create : Ptr
  vdp_video_mixer_destroy : Ptr
  vdp_video_mixer_render : Ptr
  glx_arb_create_context : Int
  glx_arb_create_context_profile : Int
  glx_ext_create_context_es2_profile : Int
  glXCreateContextAttribsARB : Ptr
  glXBindTexImageEXT : Ptr
  glXReleaseTexImageEXT : Ptr
  glXGetVideoSyncSGI : Ptr
  glXWaitVideoSyncSGI : Ptr
  screensaver_types : Nat
  transparent_cursor : Nat
  min_width : Nat
  min_height : Nat
  have_xrender : Int
  pictfmt_rgb24 : Ptr
  pictfmt_argb32 : Ptr
  mutex_attr_live : Bool
  mutex_attr_recursive : Bool
  lock_live : Bool
  lock_held : Nat
  deriving DecidableEq, Repr

/-- The zero-initialised global `struct display_s display`. -/
def display_zero : display_s :=
  { x := NULL, dri_fd := 0, va := NULL, va_available := 0, vdpau_available := 0,
    vdp_device := 0, vdp_get_proc_address := NULL, vdp_get_error_string := NULL,
    vdp_get_information_string := NULL, vdp_device_destroy := NULL,
    vdp_decoder_create := NULL, vdp_decoder_destroy := NULL, vdp_decoder_render := NULL,
    vdp_video_surface_create := NULL, vdp_video_surface_destroy := NULL,
    vdp_presentation_queue_target_create_x11 := NULL,
    vdp_presentation_queue_target_destroy := NULL, vdp_presentation_queue_create := NULL,
    vdp_presentation_queue_destroy := NULL, vdp_presentation_queue_display := NULL,
    vdp_output_surface_create := NULL, vdp_output_surface_destroy := NULL,
    vdp_video_mixer_create := NULL, vdp_video_mixer_destroy := NULL,
    vdp_video_mixer_render := NULL, glx_arb_create_context := 0,
    glx_arb_create_context_profile := 0, glx_ext_create_context_es2_profile := 0,
    glXCreateContextAttribsARB := NULL, glXBindTexImageEXT := NULL,
    glXReleaseTexImageEXT := NULL, glXGetVideoSyncSGI := NULL, glXWaitVideoSyncSGI := NULL,
    screensaver_types := 0, transparent_cursor := 0, min_width := 0, min_height := 0,
    have_xrender := 0, pictfmt_rgb24 := NULL, pictfmt_argb32 := NULL,
    mutex_attr_live := false, mutex_attr_recursive := false, lock_live := false,
    lock_held := 0 }

/-- The configuration fields read by `tables_open_display` and `tables_close_display`
(`config.quirks.x_synchronize` and the members of `config`), all C `int`s. -/
structure Config where
  x_synchronize : Int
  enable_hwdec : Int
  enable_vaapi : Int
  enable_vdpau : Int
  enable_xrender : Int
  fullscreen_width : Int
  fullscreen_height : Int
  deriving DecidableEq, Repr

/-- The members of `XRRCrtcInfo` that are read (`unsigned int width, height`). -/
structure XRRCrtcInfo where
  width : Nat
  height : Nat
  deriving DecidableEq, Repr

/-- A call into a library or the operating system, with the arguments that identify the
resource it acts on.  Log output (`trace_error`, `trace_info_f`) is not recorded. -/
inductive Call where
  | pthread_mutexattr_init
  | pthread_mutexattr_settype
  | pthread_mutex_init
  | pthread_mutex_lock
  | pthread_mutex_unlock
  | pthread_mutex_destroy
  | pthread_mutexattr_destroy
  | XOpenDisplay
  | XSynchronize (x : Ptr)
  | open_dri_card0
  | vaGetDisplay (x : Ptr)
  | vaInitialize (va : Ptr)
  | vaQueryVendorString (va : Ptr)
  | vaErrorStr (st : Int)
  | vaTerminate (va : Ptr)
  | vdp_device_create_x11 (x : Ptr)
  | vdp_get_proc_address (device : Nat) (func_id : VdpFuncId)
  | vdp_get_information_string
  | vdp_device_destroy (device : Nat)
  | glXQueryVersion (x : Ptr)
  | glXQueryExtensionsString (x : Ptr)
  | glXGetProcAddressARB (name : String)
  | glXGetProcAddress (name : String)
  | screensaver_connect
  | screensaver_type_detect (x : Ptr)
  | screensaver_disconnect
  | XCreateBitmapFromData (x : Ptr)
  | XCreatePixmapCursor (x : Ptr) (pixmap : Nat)
  | XFreePixmap (x : Ptr) (pixmap : Nat)
  | XFreeCursor (x : Ptr) (cursor : Nat)
  | XRRGetScreenResources (x : Ptr)
  | XRRGetCrtcInfo (x : Ptr) (k : Nat)
  | XRRFreeCrtcInfo (k : Nat)
  | XRRFreeScreenResources
  | XRenderQueryExtension (x : Ptr)
  | XRenderFindStandardFormat (x : Ptr) (format : Nat)
  | close (fd : Int)
  | XCloseDisplay (x : Ptr)
  deriving DecidableEq, Repr

/-- What the libraries and the operating system answer during `tables_open_display`.
`vdp_device_create_x11` is the returned status with the values written through its two
out-parameters (`none`: not written).  `vdp_get_proc_address id` is the returned status
with the value of `func` after the call (`func` is `NULL` before it).
`XRRGetScreenResources` is `none` for a `NULL` result, else the results of
`XRRGetCrtcInfo` for `crtcs[0 .. ncrtc-1]` (`none`: `NULL`). -/
structure Env where
  XOpenDisplay : Ptr
  open_dri_card0 : Int
  vaGetDisplay : Ptr
  vaInitialize : Int
  vdp_device_create_x11 : Int × Option Nat × Option Ptr
  vdp_get_proc_address : VdpFuncId → Int × Ptr
  glXQueryVersion : Bool
  glXQueryExtensionsString : Option String
  glXGetProcAddressARB : String → Ptr
  glXGetProcAddress : String → Ptr
  screensaver_type_detect : Nat
  XCreateBitmapFromData : Nat
  XCreatePixmapCursor : Nat
  XRRGetScreenResources : Option (List (Option XRRCrtcInfo))
  XRenderQueryExtension : Bool
  XRenderFindStandardFormat : Nat → Ptr

/-- The global `display` together with the calls made so far, oldest first. -/
structure World where
  display : display_s
  calls : List Call
  deriving DecidableEq, Repr

/-- Record a call. -/
def World.call (w : World) (c : Call) : World :=
  { w with calls := w.calls ++ [c] }

/-- `!!strstr(haystack, needle)`. -/
def strstr (haystack needle : String) : Int :=
  if needle.toList <:+: haystack.toList then 1 else 0

/-- Apply an update to the global `display`. -/
def World.set (w : World) (f : display_s → display_s) : World :=
  { w with display := f w.display }

/-- The macro `MIN(a, b)`. -/
def MIN (a b : Nat) : Nat := if a < b then a else b

/-! ## Display lock -/

/-- `pthread_mutexattr_init(&display.mutex_attr_recursive)`. -/
def pthread_mutexattr_init (w : World) : World :=
  (w.call .pthread_mutexattr_init).set fun d =>
    { d with mutex_attr_live := true, mutex_attr_recursive := false }

/-- `pthread_mutexattr_settype(&display.mutex_attr_recursive, PTHREAD_MUTEX_RECURSIVE)`. -/
def pthread_mutexattr_settype (w : World) : World :=
  (w.call .pthread_mutexattr_settype).set fun d => { d with mutex_attr_recursive := true }

/-- `pthread_mutex_init(&display.lock, &display.mutex_attr_recursive)`. -/
def pthread_mutex_init (w : World) : World :=
  (w.call .pthread_mutex_init).set fun d => { d with lock_live := true, lock_held := 0 }

/-- `pthread_mutex_lock(&display.lock)`. -/
def pthread_mutex_lock (w : World) : World :=
  (w.call .pthread_mutex_lock).set fun d => { d with lock_held := d.lock_held + 1 }

/-- `pthread_mutex_unlock(&display.lock)`. -/
def pthread_mutex_unlock (w : World) : World :=
  (w.call .pthread_mutex_unlock).set fun d => { d with lock_held := d.lock_held - 1 }

/-- `pthread_mutex_destroy(&display.lock)`. -/
def pthread_mutex_destroy (w : World) : World :=
  (w.call .pthread_mutex_destroy).set fun d => { d with lock_live := false }

/-- `pthread_mutexattr_destroy(&display.mutex_attr_recursive)`. -/
def pthread_mutexattr_destroy (w : World) : World :=
  (w.call .pthread_mutexattr_destroy).set fun d => { d with mutex_attr_live := false }

/-! ## GLX -/

/-- `check_glx_extensions`. -/
def check_glx_extensions (env : Env) (w : World) : World :=
  let w := w.call (.glXQueryExtensionsString w.display.x)
  match env.glXQueryExtensionsString with
  | none => w
  | some glx_ext_str =>
    let w := w.set fun d => { d with
      glx_arb_create_context := strstr glx_ext_str "GLX_ARB_create_context" }
    let w := w.set fun d => { d with
      glx_arb_create_context_profile := strstr glx_ext_str "GLX_ARB_create_context_profile" }
    let w := w.set fun d => { d with
      glx_ext_create_context_es2_profile :=
        strstr glx_ext_str "GLX_EXT_create_context_es2_profile" }
    let w := w.call (.glXGetProcAddressARB "glXCreateContextAttribsARB")
    let w := w.set fun d => { d with
      glXCreateContextAttribsARB := env.glXGetProcAddressARB "glXCreateContextAttribsARB" }
    let w := w.call (.glXGetProcAddress "glXBindTexImageEXT")
    let w := w.set fun d => { d with
      glXBindTexImageEXT := env.glXGetProcAddress "glXBindTexImageEXT" }
    let w := w.call (.glXGetProcAddress "glXReleaseTexImageEXT")
    let w := w.set fun d => { d with
      glXReleaseTexImageEXT := env.glXGetProcAddress "glXReleaseTexImageEXT" }
    let w := w.call (.glXGetProcAddress "glXGetVideoSyncSGI")
    let w := w.set fun d => { d with
      glXGetVideoSyncSGI := env.glXGetProcAddress "glXGetVideoSyncSGI" }
    let w := w.call (.glXGetProcAddress "glXWaitVideoSyncSGI")
    w.set fun d => { d with
      glXWaitVideoSyncSGI := env.glXGetProcAddress "glXWaitVideoSyncSGI" }

/-! ## Hardware decoding (`#if HAVE_HWDEC`) -/

/-- `get_proc_helper`. -/
def get_proc_helper (env : Env) (w : World) (func_id : VdpFuncId) : World × Ptr :=
  let w := w.call (.vdp_get_proc_address w.display.vdp_device func_id)
  let func := (env.vdp_get_proc_address func_id).2
  let func := if (env.vdp_get_proc_address func_id).1 ≠ VDP_STATUS_OK then NULL else func
  (w, func)

/-- `initialize_vaapi`. -/
def initialize_vaapi (env : Env) (w : World) : World :=
  let w := w.call (.vaGetDisplay w.display.x)
  let w := w.set fun d => { d with va := env.vaGetDisplay }
  let w := w.call (.vaInitialize w.display.va)
  let st := env.vaInitialize
  if st = VA_STATUS_SUCCESS then
    let w := w.call (.vaQueryVendorString w.display.va)
    w.set fun d => { d with va_available := 1 }
  else
    w.call (.vaErrorStr st)

/-- `deinitialize_vaapi`. -/
def deinitialize_vaapi (w : World) : World :=
  let w := if w.display.va ≠ NULL then w.call (.vaTerminate w.display.va) else w
  w.set fun d => { d with va := NULL }

/-- `initialize_vdpau`. -/
def initialize_vdpau (env : Env) (w : World) : World :=
  let w := w.set fun d => { d with vdp_device := VDP_INVALID_HANDLE }
  let w := w.call (.vdp_device_create_x11 w.display.x)
  let st := env.vdp_device_create_x11.1
  let w := w.set fun d => { d with
    vdp_device := env.vdp_device_create_x11.2.1.getD d.vdp_device,
    vdp_get_proc_address := env.vdp_device_create_x11.2.2.getD d.vdp_get_proc_address }
  if st = VDP_STATUS_OK ∧ w.display.vdp_get_proc_address ≠ NULL then
    let r := get_proc_helper env w .GET_ERROR_STRING
    let w := r.1.set fun d => { d with vdp_get_error_string := r.2 }
    let r := get_proc_helper env w .GET_INFORMATION_STRING
    let w := r.1.set fun d => { d with vdp_get_information_string := r.2 }
    let r := get_proc_helper env w .DEVICE_DESTROY
    let w := r.1.set fun d => { d with vdp_device_destroy := r.2 }
    let r := get_proc_helper env w .DECODER_CREATE
    let w := r.1.set fun d => { d with vdp_decoder_create := r.2 }
    let r := get_proc_helper env w .DECODER_DESTROY
    let w := r.1.set fun d => { d with vdp_decoder_destroy := r.2 }
    let r := get_proc_helper env w .DECODER_RENDER
    let w := r.1.set fun d => { d with vdp_decoder_render := r.2 }
    let r := get_proc_helper env w .VIDEO_SURFACE_CREATE
    let w := r.1.set fun d => { d with vdp_video_surface_create := r.2 }
    let r := get_proc_helper env w .VIDEO_SURFACE_DESTROY
    let w := r.1.set fun d => { d with vdp_video_surface_destroy := r.2 }
    let r := get_proc_helper env w .PRESENTATION_QUEUE_TARGET_CREATE_X11
    let w := r.1.set fun d => { d with vdp_presentation_queue_target_create_x11 := r.2 }
    let r := get_proc_helper env w .PRESENTATION_QUEUE_TARGET_DESTROY
    let w := r.1.set fun d => { d with vdp_presentation_queue_target_destroy := r.2 }
    let r := get_proc_helper env w .PRESENTATION_QUEUE_CREATE
    let w := r.1.set fun d => { d with vdp_presentation_queue_create := r.2 }
    let r := get_proc_helper env w .PRESENTATION_QUEUE_DESTROY
    let w := r.1.set fun d => { d with vdp_presentation_queue_destroy := r.2 }
    let r := get_proc_helper env w .PRESENTATION_QUEUE_DISPLAY
    let w := r.1.set fun d => { d with vdp_presentation_queue_display := r.2 }
    let r := get_proc_helper env w .OUTPUT_SURFACE_CREATE
    let w := r.1.set fun d => { d with vdp_output_surface_create := r.2 }
    let r := get_proc_helper env w .OUTPUT_SURFACE_DESTROY
    let w := r.1.set fun d => { d with vdp_output_surface_destroy := r.2 }
    let r := get_proc_helper env w .VIDEO_MIXER_CREATE
    let w := r.1.set fun d => { d with vdp_video_mixer_create := r.2 }
    let r := get_proc_helper env w .VIDEO_MIXER_DESTROY
    let w := r.1.set fun d => { d with vdp_video_mixer_destroy := r.2 }
    let r := get_proc_helper env w .VIDEO_MIXER_RENDER
    let w := r.1.set fun d => { d with vdp_video_mixer_render := r.2 }
    if w.display.vdp_get_error_string ≠ NULL ∧ w.display.vdp_get_information_string ≠ NULL ∧
        w.display.vdp_device_destroy ≠ NULL ∧ w.display.vdp_decoder_create ≠ NULL ∧
        w.display.vdp_decoder_destroy ≠ NULL ∧ w.display.vdp_decoder_render ≠ NULL ∧
        w.display.vdp_video_surface_create ≠ NULL ∧
        w.display.vdp_video_surface_destroy ≠ NULL ∧
        w.display.vdp_presentation_queue_target_create_x11 ≠ NULL ∧
        w.display.vdp_presentation_queue_target_destroy ≠ NULL ∧
        w.display.vdp_presentation_queue_create ≠ NULL ∧
        w.display.vdp_presentation_queue_destroy ≠ NULL ∧
        w.display.vdp_presentation_queue_display ≠ NULL ∧
        w.display.vdp_output_surface_create ≠ NULL ∧
        w.display.vdp_output_surface_destroy ≠ NULL ∧ w.display.vdp_video_mixer_create ≠ NULL ∧
        w.display.vdp_video_mixer_destroy ≠ NULL ∧ w.display.vdp_video_mixer_render ≠ NULL
    then
      let w := w.set fun d => { d with vdpau_available := 1 }
      w.call .vdp_get_information_string
    else
      w
  else
    w

/-- `deinitialize_vdpau`. -/
def deinitialize_vdpau (w : World) : World :=
  if w.display.vdp_device_destroy ≠ NULL ∧ w.display.vdp_device ≠ VDP_INVALID_HANDLE then
    let w := w.call (.vdp_device_destroy w.display.vdp_device)
    w.set fun d => { d with vdp_device := VDP_INVALID_HANDLE }
  else
    w

/-! ## Opening and closing the display -/

/-- The loop `for (int k = 0; k < sr->ncrtc; k ++)` of `tables_open_display`, from index
`k` on; the list holds the results of `XRRGetCrtcInfo` for the remaining CRTCs. -/
def crtc_loop : List (Option XRRCrtcInfo) → Nat → World → World
  | [], _, w => w
  | ci :: rest, k, w =>
    let w := w.call (.XRRGetCrtcInfo w.display.x k)
    let w :=
      match ci with
      | some c =>
        if c.width > 0 ∧ c.height > 0 then
          let w := w.set fun d => { d with min_width := MIN d.min_width c.width }
          w.set fun d => { d with min_height := MIN d.min_height c.height }
        else w
      | none => w
    let w :=
      match ci with
      | some _ => w.call (.XRRFreeCrtcInfo k)
      | none => w
    crtc_loop rest (k + 1) w

/-- The part of `tables_open_display` from "determine minimal size across all screens" to
the size override from the configuration. -/
def determine_min_size (config : Config) (env : Env) (w : World) : World :=
  let w := w.set fun d => { d with min_width := UINT32_MAX }
  let w := w.set fun d => { d with min_height := UINT32_MAX }
  let w := w.call (.XRRGetScreenResources w.display.x)
  let w :=
    match env.XRRGetScreenResources with
    | some crtcs =>
      let w := crtc_loop crtcs 0 w
      w.call .XRRFreeScreenResources
    | none => w
  let w :=
    if w.display.min_width = UINT32_MAX ∨ w.display.min_height = UINT32_MAX then
      let w := w.set fun d => { d with min_width := 300 }
      w.set fun d => { d with min_height := 300 }
    else w
  let w :=
    if config.fullscreen_width > 0 then
      w.set fun d => { d with min_width := to_uint32 config.fullscreen_width }
    else w
  if config.fullscreen_height > 0 then
    w.set fun d => { d with min_height := to_uint32 config.fullscreen_height }
  else w

/-- The part of `tables_open_display` that queries XRender. -/
def query_xrender (config : Config) (env : Env) (w : World) : World :=
  let w := w.call (.XRenderQueryExtension w.display.x)
  let w :=
    if env.XRenderQueryExtension then w.set fun d => { d with have_xrender := 1 }
    else w.set fun d => { d with have_xrender := 0 }
  let w :=
    if config.enable_xrender = 0 then w.set fun d => { d with have_xrender := 0 }
    else w
  if w.display.have_xrender ≠ 0 then
    let w := w.call (.XRenderFindStandardFormat w.display.x PictStandardRGB24)
    let w := w.set fun d => { d with
      pictfmt_rgb24 := env.XRenderFindStandardFormat PictStandardRGB24 }
    let w := w.call (.XRenderFindStandardFormat w.display.x PictStandardARGB32)
    w.set fun d => { d with
      pictfmt_argb32 := env.XRenderFindStandardFormat PictStandardARGB32 }
  else w

/-- The part of `tables_open_display` under `#if HAVE_HWDEC`. -/
def open_display_hwdec (config : Config) (env : Env) (w : World) : World :=
  let w := w.set fun d => { d with va_available := 0 }
  let w := w.set fun d => { d with vdpau_available := 0 }
  if config.enable_hwdec ≠ 0 then
    let w := if config.enable_vaapi ≠ 0 then initialize_vaapi env w else w
    if config.enable_vdpau ≠ 0 then initialize_vdpau env w else w
  else w

/-- The part of `tables_open_display` up to and including
`display.x = XOpenDisplay(NULL)`. -/
def open_display_connect (env : Env) (w : World) : World :=
  let w := pthread_mutexattr_init w
  let w := pthread_mutexattr_settype w
  let w := pthread_mutex_init w
  let w := pthread_mutex_lock w
  let w := w.call .XOpenDisplay
  w.set fun d => { d with x := env.XOpenDisplay }

/-- The part of `tables_open_display` between the check of `display.x` and the label
`quit`.  `HAVE_HWDEC` is the build-time switch of `config.h`. -/
def open_display_resources (HAVE_HWDEC : Bool) (config : Config) (env : Env) (w : World) :
    World :=
  let w := if config.x_synchronize ≠ 0 then w.call (.XSynchronize w.display.x) else w
  let w := w.call .open_dri_card0
  let w := w.set fun d => { d with dri_fd := env.open_dri_card0 }
  let w := if HAVE_HWDEC then open_display_hwdec config env w else w
  let w := w.call (.glXQueryVersion w.display.x)
  let w := check_glx_extensions env w
  let w := w.call .screensaver_connect
  let w := w.call (.screensaver_type_detect w.display.x)
  let w := w.set fun d => { d with screensaver_types := env.screensaver_type_detect }
  let w := w.call (.XCreateBitmapFromData w.display.x)
  let t_pixmap := env.XCreateBitmapFromData
  let w := w.call (.XCreatePixmapCursor w.display.x t_pixmap)
  let w := w.set fun d => { d with transparent_cursor := env.XCreatePixmapCursor }
  let w := w.call (.XFreePixmap w.display.x t_pixmap)
  let w := determine_min_size config env w
  query_xrender config env w

/-- `tables_open_display`: the new state of `display`, the calls made, and the returned
status. -/
def tables_open_display (HAVE_HWDEC : Bool) (config : Config) (env : Env) (w : World) :
    World × Int :=
  let retval : Int := 0
  let w := open_display_connect env w
  if w.display.x = NULL then
    let retval : Int := 1
    (pthread_mutex_unlock w, retval)
  else
    let w := open_display_resources HAVE_HWDEC config env w
    (pthread_mutex_unlock w, retval)

/-- The part of `tables_close_display` under `#if HAVE_HWDEC`. -/
def close_display_hwdec (config : Config) (w : World) : World :=
  if config.enable_hwdec ≠ 0 then
    let w := if config.enable_vaapi ≠ 0 then deinitialize_vaapi w else w
    if config.enable_vdpau ≠ 0 then deinitialize_vdpau w else w
  else w

/-- `tables_close_display`. -/
def tables_close_display (HAVE_HWDEC : Bool) (config : Config) (w : World) : World :=
  let w := pthread_mutex_lock w
  let w := w.call .screensaver_disconnect
  let w := if HAVE_HWDEC then close_display_hwdec config w else w
  let w := w.call (.close w.display.dri_fd)
  let w := w.set fun d => { d with dri_fd := -1 }
  let w := w.call (.XFreeCursor w.display.x w.display.transparent_cursor)
  let w := w.call (.XCloseDisplay w.display.x)
  let w := pthread_mutex_unlock w
  let w := pthread_mutex_destroy w
  pthread_mutexattr_destroy w

/-! ## Reference for the minimum-geometry computation -/

/-- An environment in which every library call fails or returns nothing. -/
def env_nothing : Env :=
  { XOpenDisplay := NULL, open_dri_card0 := -1, vaGetDisplay := NULL, vaInitialize := -1,
    vdp_device_create_x11 := (1, none, none), vdp_get_proc_address := fun _ => (1, NULL),
    glXQueryVersion := false, glXQueryExtensionsString := none,
    glXGetProcAddressARB := fun _ => NULL, glXGetProcAddress := fun _ => NULL,
    screensaver_type_detect := 0, XCreateBitmapFromData := 0, XCreatePixmapCursor := 0,
    XRRGetScreenResources := none, XRenderQueryExtension := false,
    XRenderFindStandardFormat := fun _ => NULL }

/-- A configuration with everything switched off and no size override. -/
def config_plain : Config :=
  { x_synchronize := 0, enable_hwdec := 0, enable_vaapi := 0, enable_vdpau := 0,
    enable_xrender := 0, fullscreen_width := 0, fullscreen_height := 0 }

/-- The process state before the first `tables_open_display`: zeroed `display`, no calls. -/
def world_zero : World := { display := display_zero, calls := [] }

/-- The pointer `get_proc_helper` returns for `func_id`; it depends on the answers of the
library only, not on the state. -/
def resolved_proc (env : Env) (func_id : VdpFuncId) : Ptr :=
  (get_proc_helper env world_zero func_id).2

/-- The state of `display` after `tables_open_display`. -/
def opened (HAVE_HWDEC : Bool) (config : Config) (env : Env) (w : World) : display_s :=
  (tables_open_display HAVE_HWDEC config env w).1.display

/-- The calls `tables_close_display` makes when `display` is in state `d`. -/
def teardown_calls (HAVE_HWDEC : Bool) (config : Config) (d : display_s) : List Call :=
  (tables_close_display HAVE_HWDEC config { display := d, calls := [] }).calls

/-- Hardware decoding with VA-API switched on. -/
def config_vaapi : Config := { config_plain with enable_hwdec := 1, enable_vaapi := 1 }

/-- Hardware decoding with VDPAU switched on. -/
def config_vdpau : Config := { config_plain with enable_hwdec := 1, enable_vdpau := 1 }

/-- The X display opens (handle 5), `vaGetDisplay` returns handle 7, `vaInitialize`
fails; no DRI device. -/
def env_va_init_fails : Env :=
  { env_nothing with XOpenDisplay := 5, vaGetDisplay := 7, vaInitialize := -1 }

/-- The X display opens (handle 5); the VDPAU device is created (handle 1) and every
entry point resolves except `VDP_FUNC_ID_DECODER_RENDER`, whose lookup returns `NULL`. -/
def env_vdpau_one_missing : Env :=
  { env_nothing with
    XOpenDisplay := 5
    vdp_device_create_x11 := (0, some 1, some 9)
    vdp_get_proc_address := fun id =>
      if id = VdpFuncId.DECODER_RENDER then (0, NULL) else (0, 100) }

/-- The X display opens (handle 5); the VDPAU device is created (handle 1) with a
non-null get-proc-address function and all 18 entry points resolve. -/
def env_vdpau_all_resolved : Env :=
  { env_nothing with
    XOpenDisplay := 5
    vdp_device_create_x11 := (0, some 1, some 9)
    vdp_get_proc_address := fun _ => (0, 100) }

/-- The X display opens (handle 5), the DRI device does not (`open` returns -1). -/
def env_x_only : Env := { env_nothing with XOpenDisplay := 5 }

end Tables

namespace Tables

/-! ## Hash-table lemmas -/

theorem lookup_replace {κ : Type} [DecidableEq κ] (t : GHashTable κ) (k k' : κ) (v : Ptr) :
    g_hash_table_lookup (g_hash_table_replace t k v) k' =
      if k = k' then v else g_hash_table_lookup t k' := by
  induction t with
  | nil => simp [g_hash_table_replace, g_hash_table_lookup]
  | cons e rest ih =>
    obtain ⟨a, b⟩ := e
    by_cases h1 : a = k
    · subst h1
      by_cases h2 : a = k' <;> simp [g_hash_table_replace, g_hash_table_lookup, h2]
    · by_cases h2 : a = k'
      · subst h2
        simp [g_hash_table_replace, g_hash_table_lookup, h1, Ne.symm h1]
      · simp [g_hash_table_replace, g_hash_table_lookup, h1, h2, ih]

theorem lookup_insert {κ : Type} [DecidableEq κ] (t : GHashTable κ) (k k' : κ) (v : Ptr) :
    g_hash_table_lookup (g_hash_table_insert t k v) k' =
      if k = k' then v else g_hash_table_lookup t k' := by
  induction t with
  | nil => simp [g_hash_table_insert, g_hash_table_lookup]
  | cons e rest ih =>
    obtain ⟨a, b⟩ := e
    by_cases h1 : a = k
    · subst h1
      by_cases h2 : a = k' <;> simp [g_hash_table_insert, g_hash_table_lookup, h2]
    · by_cases h2 : a = k'
      · subst h2
        simp [g_hash_table_insert, g_hash_table_lookup, h1, Ne.symm h1]
      · simp [g_hash_table_insert, g_hash_table_lookup, h1, h2, ih]

theorem lookup_remove {κ : Type} [DecidableEq κ] (t : GHashTable κ) (k k' : κ) :
    g_hash_table_lookup (g_hash_table_remove t k) k' =
      if k = k' then NULL else g_hash_table_lookup t k' := by
  induction t with
  | nil => simp [g_hash_table_remove, g_hash_table_lookup]
  | cons e rest ih =>
    obtain ⟨a, b⟩ := e
    by_cases h1 : a = k
    · subst h1
      by_cases h2 : a = k'
      · subst h2
        simpa [g_hash_table_remove] using ih
      · simp [g_hash_table_remove, g_hash_table_lookup, h2, ih]
    · by_cases h2 : a = k'
      · subst h2
        simp [g_hash_table_remove, g_hash_table_lookup, h1, Ne.symm h1, ih]
      · simp [g_hash_table_remove, g_hash_table_lookup, h1, h2, ih]

theorem remove_of_not_contains {κ : Type} [DecidableEq κ] (t : GHashTable κ) (k : κ)
    (h : g_hash_table_contains t k = false) : g_hash_table_remove t k = t := by
  induction t with
  | nil => rfl
  | cons e rest ih =>
    obtain ⟨a, b⟩ := e
    by_cases h1 : a = k
    · simp [g_hash_table_contains, h1] at h
    · simp [g_hash_table_contains, h1] at h
      simp [g_hash_table_remove, h1, ih h]

/-! ## Instance registry -/

theorem run_calls_snoc (s : State) (calls : List RegistryCall) (c : RegistryCall) :
    run_calls s (calls ++ [c]) = RegistryCall.run (run_calls s calls) c := by
  simp [run_calls, List.foldl_append]

theorem run_calls_append (s : State) (l1 l2 : List RegistryCall) :
    run_calls s (l1 ++ l2) = run_calls (run_calls s l1) l2 := by
  simp [run_calls, List.foldl_append]

theorem get_after_run (s : State) (c : RegistryCall) (id : PP_Instance) :
    (tables_get_pp_instance (RegistryCall.run s c) id).2 =
      match c with
      | .add i h => if i = id then h else (tables_get_pp_instance s id).2
      | .remove i => if i = id then NULL else (tables_get_pp_instance s id).2 := by
  cases c with
  | add i h =>
    simp [RegistryCall.run, tables_get_pp_instance, tables_add_pp_instance, lookup_replace]
  | remove i =>
    simp [RegistryCall.run, tables_get_pp_instance, tables_remove_pp_instance, lookup_remove]

theorem get_after_untouched (calls : List RegistryCall) (id : PP_Instance) (s : State)
    (h : ∀ c ∈ calls, RegistryCall.inst c ≠ id) :
    (tables_get_pp_instance (run_calls s calls) id).2 = (tables_get_pp_instance s id).2 := by
  induction calls generalizing s with
  | nil => rfl
  | cons c rest ih =>
    have hc : RegistryCall.inst c ≠ id := h c (List.mem_cons_self _ _)
    have hr : ∀ c' ∈ rest, RegistryCall.inst c' ≠ id :=
      fun c' hc' => h c' (List.mem_cons_of_mem _ hc')
    have step : run_calls s (c :: rest) = run_calls (RegistryCall.run s c) rest := rfl
    rw [step, ih _ hr, get_after_run]
    cases c with
    | add i p => simp [RegistryCall.inst] at hc; simp [hc]
    | remove i => simp [RegistryCall.inst] at hc; simp [hc]

theorem get_null_of_all_adds_removed (calls : List RegistryCall) (id : PP_Instance)
    (h : ∀ before p after, calls = before ++ RegistryCall.add id p :: after →
      RegistryCall.remove id ∈ after) :
    (tables_get_pp_instance (run_calls constructor_tables calls) id).2 = NULL := by
  induction calls using List.reverseRecOn with
  | nil => rfl
  | append_singleton l c ih =>
    rw [run_calls_snoc, get_after_run]
    cases c with
    | add i p =>
      by_cases hi : i = id
      · subst hi
        have := h l p [] rfl
        simp at this
      · simp only [hi, if_false]
        apply ih
        intro before q after hl
        have := h before q (after ++ [RegistryCall.add i p]) (by simp [hl])
        simpa [hi] using this
    | remove i =>
      by_cases hi : i = id
      · simp [hi]
      · simp only [hi, if_false]
        apply ih
        intro before q after hl
        have := h before q (after ++ [RegistryCall.remove i]) (by simp [hl])
        simpa [hi, Ne.symm hi] using this

/-- C1: after any sequence of `tables_add_pp_instance` / `tables_remove_pp_instance` calls
from the empty registry, `tables_get_pp_instance id` returns the handle of the most recent
add for `id` not followed by a remove of `id` (an add of `id` after which the sequence has
no remove of `id` and no later add of `id`), returns `NULL` when every add for `id` is
followed by a remove of `id`, and a second add for the same id replaces the first handle. -/
theorem instance_registry_get_latest (calls : List RegistryCall) (id : PP_Instance) :
    (∀ before h after, calls = before ++ RegistryCall.add id h :: after →
        RegistryCall.remove id ∉ after → (∀ h', RegistryCall.add id h' ∉ after) →
        (tables_get_pp_instance (run_calls constructor_tables calls) id).2 = h) ∧
    ((∀ before h after, calls = before ++ RegistryCall.add id h :: after →
        RegistryCall.remove id ∈ after) →
        (tables_get_pp_instance (run_calls constructor_tables calls) id).2 = NULL) ∧
    (∀ h1 h2, (tables_get_pp_instance
        (tables_add_pp_instance (tables_add_pp_instance (run_calls constructor_tables calls)
          id h1) id h2) id).2 = h2) := by
  refine ⟨?_, get_null_of_all_adds_removed calls id, ?_⟩
  · intro before h after hc hrem hadd
    have hun : ∀ c ∈ after, RegistryCall.inst c ≠ id := by
      intro c hcmem hci
      cases c with
      | add i p =>
        simp only [RegistryCall.inst] at hci
        subst hci
        exact hadd p hcmem
      | remove i =>
        simp only [RegistryCall.inst] at hci
        subst hci
        exact hrem hcmem
    have hsplit : calls = (before ++ [RegistryCall.add id h]) ++ after := by simp [hc]
    rw [hsplit, run_calls_append, get_after_untouched after id _ hun, run_calls_snoc,
      get_after_run]
    simp
  · intro h1 h2
    simp [tables_get_pp_instance, tables_add_pp_instance, lookup_replace]

/-- C1 at a concrete call sequence: id 10 is added twice and never removed, so the second
handle is returned. -/
theorem instance_registry_get_latest_witness :
    (tables_get_pp_instance (run_calls constructor_tables
      [RegistryCall.add 10 7, RegistryCall.add 11 5, RegistryCall.add 10 9,
        RegistryCall.remove 11]) 10).2 = 9 :=
  (instance_registry_get_latest
    [RegistryCall.add 10 7, RegistryCall.add 11 5, RegistryCall.add 10 9,
      RegistryCall.remove 11] 10).1
    [RegistryCall.add 10 7, RegistryCall.add 11 5] 9 [RegistryCall.remove 11] rfl
    (by decide) (by intro h'; simp)

/-- C8: removing an id that is not present in the instance registry, and unbinding an
object that is not bound in the object registry, return the process state unchanged (both
registries as they were); both operations are total. -/
theorem remove_absent_is_noop (s : State) (id : PP_Instance) (obj : Ptr) :
    (g_hash_table_contains s.pp_to_np_ht id = false → tables_remove_pp_instance s id = s) ∧
    (g_hash_table_contains s.npobj_to_npp_ht obj = false →
      tables_remove_npobj_npp_mapping s obj = s) := by
  constructor
  · intro h
    simp [tables_remove_pp_instance, remove_of_not_contains _ _ h]
  · intro h
    simp [tables_remove_npobj_npp_mapping, remove_of_not_contains _ _ h]

/-- C8 at a concrete state: id 12 and object 99 are absent, and removing them changes
nothing. -/
theorem remove_absent_is_noop_witness :
    tables_remove_pp_instance
        { pp_to_np_ht := [(10, 7), (11, 5)], npobj_to_npp_ht := [(40, 3)], instance_id := 12 }
        12 =
      { pp_to_np_ht := [(10, 7), (11, 5)], npobj_to_npp_ht := [(40, 3)], instance_id := 12 } ∧
    tables_remove_npobj_npp_mapping
        { pp_to_np_ht := [(10, 7), (11, 5)], npobj_to_npp_ht := [(40, 3)], instance_id := 12 }
        99 =
      { pp_to_np_ht := [(10, 7), (11, 5)], npobj_to_npp_ht := [(40, 3)], instance_id := 12 } :=
  ⟨(remove_absent_is_noop
      { pp_to_np_ht := [(10, 7), (11, 5)], npobj_to_npp_ht := [(40, 3)], instance_id := 12 }
      12 99).1 (by decide),
   (remove_absent_is_noop
      { pp_to_np_ht := [(10, 7), (11, 5)], npobj_to_npp_ht := [(40, 3)], instance_id := 12 }
      12 99).2 (by decide)⟩

/-- C9: in every state, after `tables_add_npobj_npp_mapping obj npp` the lookup of `obj`
returns `npp` (whatever the instance registry holds); adds and removes on the instance
registry leave every object lookup as it was, and binds and unbinds leave every instance
get as it was. -/
theorem object_registry_independent (s : State) (obj npp o : Ptr) (id i : PP_Instance)
    (h : Ptr) :
    (tables_get_npobj_npp_mapping (tables_add_npobj_npp_mapping s obj npp) obj).2 = npp ∧
    (tables_get_npobj_npp_mapping (tables_add_pp_instance s id h) o).2 =
      (tables_get_npobj_npp_mapping s o).2 ∧
    (tables_get_npobj_npp_mapping (tables_remove_pp_instance s id) o).2 =
      (tables_get_npobj_npp_mapping s o).2 ∧
    (tables_get_pp_instance (tables_add_npobj_npp_mapping s obj npp) i).2 =
      (tables_get_pp_instance s i).2 ∧
    (tables_get_pp_instance (tables_remove_npobj_npp_mapping s obj) i).2 =
      (tables_get_pp_instance s i).2 := by
  refine ⟨?_, rfl, rfl, rfl, rfl⟩
  simp [tables_get_npobj_npp_mapping, tables_add_npobj_npp_mapping, lookup_insert]

theorem get_some_loop_cons (npp_of : Ptr → Ptr) (k : PP_Instance) (v : Ptr)
    (rest : List (PP_Instance × Ptr)) (r : Ptr) :
    get_some_loop npp_of ((k, v) :: rest) r =
      if v ≠ NULL ∧ npp_of v ≠ NULL then get_some_loop npp_of rest v
      else get_some_loop npp_of rest r := rfl

theorem get_some_loop_append (npp_of : Ptr → Ptr) (l1 l2 : List (PP_Instance × Ptr))
    (r : Ptr) :
    get_some_loop npp_of (l1 ++ l2) r = get_some_loop npp_of l2 (get_some_loop npp_of l1 r) := by
  induction l1 generalizing r with
  | nil => rfl
  | cons e rest ih =>
    obtain ⟨k, v⟩ := e
    by_cases hq : v ≠ NULL ∧ npp_of v ≠ NULL
    · rw [List.cons_append, get_some_loop_cons, get_some_loop_cons, if_pos hq, if_pos hq, ih]
    · rw [List.cons_append, get_some_loop_cons, get_some_loop_cons, if_neg hq, if_neg hq, ih]

theorem get_some_loop_none (npp_of : Ptr → Ptr) (l : List (PP_Instance × Ptr)) (r : Ptr)
    (h : ∀ e ∈ l, ¬ (e.2 ≠ NULL ∧ npp_of e.2 ≠ NULL)) : get_some_loop npp_of l r = r := by
  induction l generalizing r with
  | nil => rfl
  | cons e rest ih =>
    obtain ⟨k, v⟩ := e
    have hv := h (k, v) (List.mem_cons_self _ _)
    rw [get_some_loop_cons, if_neg hv]
    exact ih r (fun e he => h e (List.mem_cons_of_mem _ he))

theorem get_some_loop_cases (npp_of : Ptr → Ptr) (l : List (PP_Instance × Ptr)) (r : Ptr) :
    (get_some_loop npp_of l r = r ∧ ∀ e ∈ l, ¬ (e.2 ≠ NULL ∧ npp_of e.2 ≠ NULL)) ∨
    (∃ e ∈ l, e.2 = get_some_loop npp_of l r ∧ e.2 ≠ NULL ∧ npp_of e.2 ≠ NULL) := by
  induction l generalizing r with
  | nil => left; exact ⟨rfl, by simp⟩
  | cons e rest ih =>
    obtain ⟨k, v⟩ := e
    by_cases hq : v ≠ NULL ∧ npp_of v ≠ NULL
    · right
      rw [get_some_loop_cons, if_pos hq]
      rcases ih v with ⟨h1, _⟩ | ⟨e, he, h1, h2⟩
      · exact ⟨(k, v), List.mem_cons_self _ _, h1.symm, hq⟩
      · exact ⟨e, List.mem_cons_of_mem _ he, h1, h2⟩
    · rw [get_some_loop_cons, if_neg hq]
      rcases ih r with ⟨h1, h2⟩ | ⟨e, he, h1, h2⟩
      · left
        refine ⟨h1, ?_⟩
        intro e he
        rcases List.mem_cons.1 he with rfl | he
        · exact hq
        · exact h2 e he
      · right
        exact ⟨e, List.mem_cons_of_mem _ he, h1, h2⟩

/-- C10: with the registry given by its entries in iteration order,
`tables_get_some_pp_instance` leaves the state unchanged, returns the handle of the last
entry whose handle is non-null with a non-null `npp`, returns `NULL` exactly when no entry
qualifies, and any non-null result is the handle of a stored entry with a non-null `npp`. -/
theorem get_some_returns_last_qualifying (npp_of : Ptr → Ptr) (s : State) :
    (tables_get_some_pp_instance npp_of s).1 = s ∧
    (∀ before e after, s.pp_to_np_ht = before ++ e :: after →
      (e.2 ≠ NULL ∧ npp_of e.2 ≠ NULL) →
      (∀ e' ∈ after, ¬ (e'.2 ≠ NULL ∧ npp_of e'.2 ≠ NULL)) →
      (tables_get_some_pp_instance npp_of s).2 = e.2) ∧
    ((tables_get_some_pp_instance npp_of s).2 = NULL ↔
      ∀ e ∈ s.pp_to_np_ht, ¬ (e.2 ≠ NULL ∧ npp_of e.2 ≠ NULL)) ∧
    ((tables_get_some_pp_instance npp_of s).2 ≠ NULL →
      ∃ e ∈ s.pp_to_np_ht, e.2 = (tables_get_some_pp_instance npp_of s).2 ∧
        npp_of (tables_get_some_pp_instance npp_of s).2 ≠ NULL) := by
  refine ⟨rfl, ?_, ?_, ?_⟩
  · intro before e after hs hq hafter
    obtain ⟨k, v⟩ := e
    simp only [tables_get_some_pp_instance, hs]
    rw [get_some_loop_append, get_some_loop_cons, if_pos hq]
    exact get_some_loop_none npp_of after v hafter
  · simp only [tables_get_some_pp_instance]
    constructor
    · intro hnull
      rcases get_some_loop_cases npp_of s.pp_to_np_ht NULL with ⟨_, h2⟩ | ⟨e, _, h1, h2, _⟩
      · exact h2
      · exact absurd (h1.trans hnull) h2
    · intro hall
      exact get_some_loop_none npp_of _ NULL hall
  · simp only [tables_get_some_pp_instance]
    intro hne
    rcases get_some_loop_cases npp_of s.pp_to_np_ht NULL with ⟨h1, _⟩ | ⟨e, he, h1, _, h3⟩
    · exact absurd h1 hne
    · exact ⟨e, he, h1, h1 ▸ h3⟩

/-- C10 at a concrete registry: the entries are scanned in order and the last one with a
non-null handle and non-null `npp` (handle 9) wins over the earlier handle 7. -/
theorem get_some_returns_last_qualifying_witness :
    (tables_get_some_pp_instance (fun p => if p = 5 then 0 else 1)
      { pp_to_np_ht := [(10, 7), (11, 9), (12, 5), (13, 0)], npobj_to_npp_ht := [],
        instance_id := 14 }).2 = 9 :=
  (get_some_returns_last_qualifying (fun p => if p = 5 then 0 else 1)
    { pp_to_np_ht := [(10, 7), (11, 9), (12, 5), (13, 0)], npobj_to_npp_ht := [],
      instance_id := 14 }).2.1 [(10, 7)] (11, 9) [(12, 5), (13, 0)] rfl (by decide)
    (by decide)

/-! ## Instance id generator -/

theorem int32_wrap_succ (a : Int) : int32_wrap (int32_wrap a + 1) = int32_wrap (a + 1) := by
  unfold int32_wrap
  omega

theorem int32_wrap_of_range (a : Int) (h1 : -2147483648 ≤ a) (h2 : a < 2147483648) :
    int32_wrap a = a := by
  unfold int32_wrap
  omega

theorem generate_ids_eq (n : Nat) (s : State) (a : Int) (hs : s.instance_id = int32_wrap a) :
    generate_ids n s = (List.range n).map (fun (k : Nat) => int32_wrap (a + (k : Int))) := by
  induction n generalizing s a with
  | zero => rfl
  | succ n ih =>
    have hstep : generate_ids (n + 1) s =
        s.instance_id :: generate_ids n (tables_generate_new_pp_instance_id s).1 := rfl
    have hnext : (tables_generate_new_pp_instance_id s).1.instance_id = int32_wrap (a + 1) := by
      simp [tables_generate_new_pp_instance_id, hs, int32_wrap_succ]
    rw [hstep, ih _ (a + 1) hnext, List.range_succ_eq_map, List.map_cons, List.map_map, hs]
    congr 1
    · simp
    · apply List.map_congr_left
      intro k _
      simp only [Function.comp, Nat.succ_eq_add_one, Nat.cast_add, Nat.cast_one]
      congr 1
      omega

theorem generate_ids_initial (n : Nat) :
    generate_ids n constructor_tables =
      (List.range n).map (fun (k : Nat) => int32_wrap (10 + (k : Int))) :=
  generate_ids_eq n constructor_tables 10 (by decide)

theorem generate_ids_getElem? (n k : Nat) (h : k < n) :
    (generate_ids n constructor_tables)[k]? = some (int32_wrap (10 + (k : Int))) := by
  rw [generate_ids_initial, List.getElem?_map, List.getElem?_range h]
  rfl

/-- C2 fails as stated: the 32-bit counter started at 10 wraps around.  Call number
2147483639 returns -2147483648, which is below 10 and below the value returned before it,
and call number 4294967297 returns 10 again, the value of the first call. -/
theorem generate_ids_wraps :
    (generate_ids 2147483639 constructor_tables)[2147483637]? = some 2147483647 ∧
    (generate_ids 2147483639 constructor_tables)[2147483638]? = some (-2147483648) ∧
    (generate_ids 4294967297 constructor_tables)[0]? = some 10 ∧
    (generate_ids 4294967297 constructor_tables)[4294967296]? = some 10 := by
  refine ⟨?_, ?_, ?_, ?_⟩
  · rw [generate_ids_getElem? _ _ (by norm_num)]
    norm_num [int32_wrap]
  · rw [generate_ids_getElem? _ _ (by norm_num)]
    norm_num [int32_wrap]
  · rw [generate_ids_getElem? _ _ (by norm_num)]
    norm_num [int32_wrap]
  · rw [generate_ids_getElem? _ _ (by norm_num)]
    norm_num [int32_wrap]

/-- C2 as amended: for every `N ≤ 2147483638` (= 2^31 - 10), the values returned by `N`
successive calls of `tables_generate_new_pp_instance_id` from the initial state are
10, 11, ..., 10 + N - 1: strictly increasing, pairwise distinct, all at least 10, and the
first one is 10. -/
theorem generate_ids_fresh (N : Nat) (hN : N ≤ 2147483638) :
    generate_ids N constructor_tables = (List.range N).map (fun (k : Nat) => (10 : Int) + (k : Int)) ∧
    List.Pairwise (fun a b => a < b) (generate_ids N constructor_tables) ∧
    (generate_ids N constructor_tables).Nodup ∧
    (∀ r ∈ generate_ids N constructor_tables, 10 ≤ r) ∧
    (0 < N → (generate_ids N constructor_tables).head? = some 10) := by
  have heq : generate_ids N constructor_tables =
      (List.range N).map (fun (k : Nat) => (10 : Int) + (k : Int)) := by
    rw [generate_ids_initial]
    apply List.map_congr_left
    intro k hk
    have hk' : k < N := List.mem_range.1 hk
    apply int32_wrap_of_range <;> omega
  have hpw : List.Pairwise (fun a b => a < b) (generate_ids N constructor_tables) := by
    rw [heq, List.pairwise_map]
    refine (List.pairwise_lt_range N).imp ?_
    intro a b hab
    show (10 : Int) + (a : Int) < 10 + (b : Int)
    omega
  refine ⟨heq, hpw, ?_, ?_, ?_⟩
  · exact hpw.imp (fun hab => ne_of_lt hab)
  · rw [heq]
    intro r hr
    obtain ⟨k, _, rfl⟩ := List.mem_map.1 hr
    show (10 : Int) ≤ 10 + (k : Int)
    omega
  · intro hpos
    rw [heq]
    obtain ⟨m, rfl⟩ : ∃ m, N = m + 1 := ⟨N - 1, by omega⟩
    rw [List.range_succ_eq_map]
    rfl

/-- C2 as amended, at three calls: the values are 10, 11, 12. -/
theorem generate_ids_fresh_witness :
    generate_ids 3 constructor_tables = [10, 11, 12] :=
  (generate_ids_fresh 3 (by decide)).1

/-! ## Display: what each stage leaves untouched -/

@[simp] theorem set_display (w : World) (f : display_s → display_s) :
    (w.set f).display = f w.display := rfl

@[simp] theorem set_calls (w : World) (f : display_s → display_s) :
    (w.set f).calls = w.calls := rfl

@[simp] theorem call_display (w : World) (c : Call) : (w.call c).display = w.display := rfl

@[simp] theorem call_calls (w : World) (c : Call) : (w.call c).calls = w.calls ++ [c] := rfl

@[simp] theorem get_proc_helper_world (env : Env) (w : World) (id : VdpFuncId) :
    (get_proc_helper env w id).1 = w.call (.vdp_get_proc_address w.display.vdp_device id) :=
  rfl

theorem get_proc_helper_result (env : Env) (w : World) (id : VdpFuncId) :
    (get_proc_helper env w id).2 =
      if (env.vdp_get_proc_address id).1 ≠ VDP_STATUS_OK then NULL
      else (env.vdp_get_proc_address id).2 := rfl

theorem get_proc_helper_resolved (env : Env) (w : World) (id : VdpFuncId) :
    (get_proc_helper env w id).2 = resolved_proc env id := rfl

theorem pthread_mutex_unlock_x (w : World) :
    (pthread_mutex_unlock w).display.x = w.display.x := rfl

theorem pthread_mutex_unlock_dri_fd (w : World) :
    (pthread_mutex_unlock w).display.dri_fd = w.display.dri_fd := rfl

theorem pthread_mutex_unlock_va (w : World) :
    (pthread_mutex_unlock w).display.va = w.display.va := rfl

theorem pthread_mutex_unlock_va_available (w : World) :
    (pthread_mutex_unlock w).display.va_available = w.display.va_available := rfl

theorem pthread_mutex_unlock_vdpau_available (w : World) :
    (pthread_mutex_unlock w).display.vdpau_available = w.display.vdpau_available := rfl

theorem pthread_mutex_unlock_vdp_get_proc_address (w : World) :
    (pthread_mutex_unlock w).display.vdp_get_proc_address = w.display.vdp_get_proc_address := rfl

theorem pthread_mutex_unlock_vdp_device_destroy (w : World) :
    (pthread_mutex_unlock w).display.vdp_device_destroy = w.display.vdp_device_destroy := rfl

theorem pthread_mutex_unlock_transparent_cursor (w : World) :
    (pthread_mutex_unlock w).display.transparent_cursor = w.display.transparent_cursor := rfl

theorem open_display_connect_dri_fd (env : Env) (w : World) :
    (open_display_connect env w).display.dri_fd = w.display.dri_fd := by
  simp only [open_display_connect, pthread_mutexattr_init, pthread_mutexattr_settype,
    pthread_mutex_init, pthread_mutex_lock, set_display, call_display]

theorem open_display_connect_va (env : Env) (w : World) :
    (open_display_connect env w).display.va = w.display.va := by
  simp only [open_display_connect, pthread_mutexattr_init, pthread_mutexattr_settype,
    pthread_mutex_init, pthread_mutex_lock, set_display, call_display]

theorem open_display_connect_vdp_get_proc_address (env : Env) (w : World) :
    (open_display_connect env w).display.vdp_get_proc_address = w.display.vdp_get_proc_address := by
  simp only [open_display_connect, pthread_mutexattr_init, pthread_mutexattr_settype,
    pthread_mutex_init, pthread_mutex_lock, set_display, call_display]

theorem open_display_connect_vdp_device_destroy (env : Env) (w : World) :
    (open_display_connect env w).display.vdp_device_destroy = w.display.vdp_device_destroy := by
  simp only [open_display_connect, pthread_mutexattr_init, pthread_mutexattr_settype,
    pthread_mutex_init, pthread_mutex_lock, set_display, call_display]

theorem open_display_connect_transparent_cursor (env : Env) (w : World) :
    (open_display_connect env w).display.transparent_cursor = w.display.transparent_cursor := by
  simp only [open_display_connect, pthread_mutexattr_init, pthread_mutexattr_settype,
    pthread_mutex_init, pthread_mutex_lock, set_display, call_display]

theorem check_glx_extensions_x (env : Env) (w : World) :
    (check_glx_extensions env w).display.x = w.display.x := by
  unfold check_glx_extensions
  cases env.glXQueryExtensionsString <;> simp only [set_display, call_display]

theorem check_glx_extensions_dri_fd (env : Env) (w : World) :
    (check_glx_extensions env w).display.dri_fd = w.display.dri_fd := by
  unfold check_glx_extensions
  cases env.glXQueryExtensionsString <;> simp only [set_display, call_display]

theorem check_glx_extensions_va (env : Env) (w : World) :
    (check_glx_extensions env w).display.va = w.display.va := by
  unfold check_glx_extensions
  cases env.glXQueryExtensionsString <;> simp only [set_display, call_display]

theorem check_glx_extensions_va_available (env : Env) (w : World) :
    (check_glx_extensions env w).display.va_available = w.display.va_available := by
  unfold check_glx_extensions
  cases env.glXQueryExtensionsString <;> simp only [set_display, call_display]

theorem check_glx_extensions_vdpau_available (env : Env) (w : World) :
    (check_glx_extensions env w).display.vdpau_available = w.display.vdpau_available := by
  unfold check_glx_extensions
  cases env.glXQueryExtensionsString <;> simp only [set_display, call_display]

theorem check_glx_extensions_vdp_get_proc_address (env : Env) (w : World) :
    (check_glx_extensions env w).display.vdp_get_proc_address = w.display.vdp_get_proc_address := by
  unfold check_glx_extensions
  cases env.glXQueryExtensionsString <;> simp only [set_display, call_display]

theorem check_glx_extensions_vdp_device_destroy (env : Env) (w : World) :
    (check_glx_extensions env w).display.vdp_device_destroy = w.display.vdp_device_destroy := by
  unfold check_glx_extensions
  cases env.glXQueryExtensionsString <;> simp only [set_display, call_display]

theorem check_glx_extensions_lock_held (env : Env) (w : World) :
    (check_glx_extensions env w).display.lock_held = w.display.lock_held := by
  unfold check_glx_extensions
  cases env.glXQueryExtensionsString <;> simp only [set_display, call_display]

theorem crtc_loop_x (l : List (Option XRRCrtcInfo)) (k : Nat) (w : World) :
    (crtc_loop l k w).display.x = w.display.x := by
  induction l generalizing k w with
  | nil => rfl
  | cons ci rest ih =>
    unfold crtc_loop
    rw [ih]
    cases ci with
    | none => simp only [set_display, call_display]
    | some c =>
      simp only [set_display, call_display]
      split <;> simp only [set_display, call_display]

theorem crtc_loop_dri_fd (l : List (Option XRRCrtcInfo)) (k : Nat) (w : World) :
    (crtc_loop l k w).display.dri_fd = w.display.dri_fd := by
  induction l generalizing k w with
  | nil => rfl
  | cons ci rest ih =>
    unfold crtc_loop
    rw [ih]
    cases ci with
    | none => simp only [set_display, call_display]
    | some c =>
      simp only [set_display, call_display]
      split <;> simp only [set_display, call_display]

theorem crtc_loop_va (l : List (Option XRRCrtcInfo)) (k : Nat) (w : World) :
    (crtc_loop l k w).display.va = w.display.va := by
  induction l generalizing k w with
  | nil => rfl
  | cons ci rest ih =>
    unfold crtc_loop
    rw [ih]
    cases ci with
    | none => simp only [set_display, call_display]
    | some c =>
      simp only [set_display, call_display]
      split <;> simp only [set_display, call_display]

theorem crtc_loop_va_available (l : List (Option XRRCrtcInfo)) (k : Nat) (w : World) :
    (crtc_loop l k w).display.va_available = w.display.va_available := by
  induction l generalizing k w with
  | nil => rfl
  | cons ci rest ih =>
    unfold crtc_loop
    rw [ih]
    cases ci with
    | none => simp only [set_display, call_display]
    | some c =>
      simp only [set_display, call_display]
      split <;> simp only [set_display, call_display]

theorem crtc_loop_vdpau_available (l : List (Option XRRCrtcInfo)) (k : Nat) (w : World) :
    (crtc_loop l k w).display.vdpau_available = w.display.vdpau_available := by
  induction l generalizing k w with
  | nil => rfl
  | cons ci rest ih =>
    unfold crtc_loop
    rw [ih]
    cases ci with
    | none => simp only [set_display, call_display]
    | some c =>
      simp only [set_display, call_display]
      split <;> simp only [set_display, call_display]

theorem crtc_loop_vdp_get_proc_address (l : List (Option XRRCrtcInfo)) (k : Nat) (w : World) :
    (crtc_loop l k w).display.vdp_get_proc_address = w.display.vdp_get_proc_address := by
  induction l generalizing k w with
  | nil => rfl
  | cons ci rest ih =>
    unfold crtc_loop
    rw [ih]
    cases ci with
    | none => simp only [set_display, call_display]
    | some c =>
      simp only [set_display, call_display]
      split <;> simp only [set_display, call_display]

theorem crtc_loop_vdp_device_destroy (l : List (Option XRRCrtcInfo)) (k : Nat) (w : World) :
    (crtc_loop l k w).display.vdp_device_destroy = w.display.vdp_device_destroy := by
  induction l generalizing k w with
  | nil => rfl
  | cons ci rest ih =>
    unfold crtc_loop
    rw [ih]
    cases ci with
    | none => simp only [set_display, call_display]
    | some c =>
      simp only [set_display, call_display]
      split <;> simp only [set_display, call_display]

theorem crtc_loop_transparent_cursor (l : List (Option XRRCrtcInfo)) (k : Nat) (w : World) :
    (crtc_loop l k w).display.transparent_cursor = w.display.transparent_cursor := by
  induction l generalizing k w with
  | nil => rfl
  | cons ci rest ih =>
    unfold crtc_loop
    rw [ih]
    cases ci with
    | none => simp only [set_display, call_display]
    | some c =>
      simp only [set_display, call_display]
      split <;> simp only [set_display, call_display]

theorem crtc_loop_lock_held (l : List (Option XRRCrtcInfo)) (k : Nat) (w : World) :
    (crtc_loop l k w).display.lock_held = w.display.lock_held := by
  induction l generalizing k w with
  | nil => rfl
  | cons ci rest ih =>
    unfold crtc_loop
    rw [ih]
    cases ci with
    | none => simp only [set_display, call_display]
    | some c =>
      simp only [set_display, call_display]
      split <;> simp only [set_display, call_display]

theorem determine_min_size_x (config : Config) (env : Env) (w : World) :
    (determine_min_size config env w).display.x = w.display.x := by
  unfold determine_min_size
  simp only [set_display, call_display]
  split_ifs <;> cases env.XRRGetScreenResources <;>
    simp only [set_display, call_display, crtc_loop_x]

theorem determine_min_size_dri_fd (config : Config) (env : Env) (w : World) :
    (determine_min_size config env w).display.dri_fd = w.display.dri_fd := by
  unfold determine_min_size
  simp only [set_display, call_display]
  split_ifs <;> cases env.XRRGetScreenResources <;>
    simp only [set_display, call_display, crtc_loop_dri_fd]

theorem determine_min_size_va (config : Config) (env : Env) (w : World) :
    (determine_min_size config env w).display.va = w.display.va := by
  unfold determine_min_size
  simp only [set_display, call_display]
  split_ifs <;> cases env.XRRGetScreenResources <;>
    simp only [set_display, call_display, crtc_loop_va]

theorem determine_min_size_va_available (config : Config) (env : Env) (w : World) :
    (determine_min_size config env w).display.va_available = w.display.va_available := by
  unfold determine_min_size
  simp only [set_display, call_display]
  split_ifs <;> cases env.XRRGetScreenResources <;>
    simp only [set_display, call_display, crtc_loop_va_available]

theorem determine_min_size_vdpau_available (config : Config) (env : Env) (w : World) :
    (determine_min_size config env w).display.vdpau_available = w.display.vdpau_available := by
  unfold determine_min_size
  simp only [set_display, call_display]
  split_ifs <;> cases env.XRRGetScreenResources <;>
    simp only [set_display, call_display, crtc_loop_vdpau_available]

theorem determine_min_size_vdp_get_proc_address (config : Config) (env : Env) (w : World) :
    (determine_min_size config env w).display.vdp_get_proc_address = w.display.vdp_get_proc_address := by
  unfold determine_min_size
  simp only [set_display, call_display]
  split_ifs <;> cases env.XRRGetScreenResources <;>
    simp only [set_display, call_display, crtc_loop_vdp_get_proc_address]

theorem determine_min_size_vdp_device_destroy (config : Config) (env : Env) (w : World) :
    (determine_min_size config env w).display.vdp_device_destroy = w.display.vdp_device_destroy := by
  unfold determine_min_size
  simp only [set_display, call_display]
  split_ifs <;> cases env.XRRGetScreenResources <;>
    simp only [set_display, call_display, crtc_loop_vdp_device_destroy]

theorem determine_min_size_transparent_cursor (config : Config) (env : Env) (w : World) :
    (determine_min_size config env w).display.transparent_cursor = w.display.transparent_cursor := by
  unfold determine_min_size
  simp only [set_display, call_display]
  split_ifs <;> cases env.XRRGetScreenResources <;>
    simp only [set_display, call_display, crtc_loop_transparent_cursor]

theorem determine_min_size_lock_held (config : Config) (env : Env) (w : World) :
    (determine_min_size config env w).display.lock_held = w.display.lock_held := by
  unfold determine_min_size
  simp only [set_display, call_display]
  split_ifs <;> cases env.XRRGetScreenResources <;>
    simp only [set_display, call_display, crtc_loop_lock_held]

theorem query_xrender_x (config : Config) (env : Env) (w : World) :
    (query_xrender config env w).display.x = w.display.x := by
  unfold query_xrender
  simp only [set_display, call_display]
  split_ifs <;> simp only [set_display, call_display]

theorem query_xrender_dri_fd (config : Config) (env : Env) (w : World) :
    (query_xrender config env w).display.dri_fd = w.display.dri_fd := by
  unfold query_xrender
  simp only [set_display, call_display]
  split_ifs <;> simp only [set_display, call_display]

theorem query_xrender_va (config : Config) (env : Env) (w : World) :
    (query_xrender config env w).display.va = w.display.va := by
  unfold query_xrender
  simp only [set_display, call_display]
  split_ifs <;> simp only [set_display, call_display]

theorem query_xrender_va_available (config : Config) (env : Env) (w : World) :
    (query_xrender config env w).display.va_available = w.display.va_available := by
  unfold query_xrender
  simp only [set_display, call_display]
  split_ifs <;> simp only [set_display, call_display]

theorem query_xrender_vdpau_available (config : Config) (env : Env) (w : World) :
    (query_xrender config env w).display.vdpau_available = w.display.vdpau_available := by
  unfold query_xrender
  simp only [set_display, call_display]
  split_ifs <;> simp only [set_display, call_display]

theorem query_xrender_vdp_get_proc_address (config : Config) (env : Env) (w : World) :
    (query_xrender config env w).display.vdp_get_proc_address = w.display.vdp_get_proc_address := by
  unfold query_xrender
  simp only [set_display, call_display]
  split_ifs <;> simp only [set_display, call_display]

theorem query_xrender_vdp_device_destroy (config : Config) (env : Env) (w : World) :
    (query_xrender config env w).display.vdp_device_destroy = w.display.vdp_device_destroy := by
  unfold query_xrender
  simp only [set_display, call_display]
  split_ifs <;> simp only [set_display, call_display]

theorem query_xrender_transparent_cursor (config : Config) (env : Env) (w : World) :
    (query_xrender config env w).display.transparent_cursor = w.display.transparent_cursor := by
  unfold query_xrender
  simp only [set_display, call_display]
  split_ifs <;> simp only [set_display, call_display]

theorem query_xrender_lock_held (config : Config) (env : Env) (w : World) :
    (query_xrender config env w).display.lock_held = w.display.lock_held := by
  unfold query_xrender
  simp only [set_display, call_display]
  split_ifs <;> simp only [set_display, call_display]

theorem initialize_vaapi_x (env : Env) (w : World) :
    (initialize_vaapi env w).display.x = w.display.x := by
  unfold initialize_vaapi
  simp only [set_display, call_display]
  split_ifs <;> simp only [set_display, call_display]

theorem initialize_vaapi_dri_fd (env : Env) (w : World) :
    (initialize_vaapi env w).display.dri_fd = w.display.dri_fd := by
  unfold initialize_vaapi
  simp only [set_display, call_display]
  split_ifs <;> simp only [set_display, call_display]

theorem initialize_vaapi_vdpau_available (env : Env) (w : World) :
    (initialize_vaapi env w).display.vdpau_available = w.display.vdpau_available := by
  unfold initialize_vaapi
  simp only [set_display, call_display]
  split_ifs <;> simp only [set_display, call_display]

theorem initialize_vaapi_vdp_get_proc_address (env : Env) (w : World) :
    (initialize_vaapi env w).display.vdp_get_proc_address = w.display.vdp_get_proc_address := by
  unfold initialize_vaapi
  simp only [set_display, call_display]
  split_ifs <;> simp only [set_display, call_display]

theorem initialize_vaapi_vdp_device_destroy (env : Env) (w : World) :
    (initialize_vaapi env w).display.vdp_device_destroy = w.display.vdp_device_destroy := by
  unfold initialize_vaapi
  simp only [set_display, call_display]
  split_ifs <;> simp only [set_display, call_display]

theorem initialize_vaapi_lock_held (env : Env) (w : World) :
    (initialize_vaapi env w).display.lock_held = w.display.lock_held := by
  unfold initialize_vaapi
  simp only [set_display, call_display]
  split_ifs <;> simp only [set_display, call_display]

theorem initialize_vdpau_x (env : Env) (w : World) :
    (initialize_vdpau env w).display.x = w.display.x := by
  unfold initialize_vdpau
  simp only [set_display, call_display, get_proc_helper_world, get_proc_helper_resolved]
  split_ifs <;> simp only [set_display, call_display]

theorem initialize_vdpau_dri_fd (env : Env) (w : World) :
    (initialize_vdpau env w).display.dri_fd = w.display.dri_fd := by
  unfold initialize_vdpau
  simp only [set_display, call_display, get_proc_helper_world, get_proc_helper_resolved]
  split_ifs <;> simp only [set_display, call_display]

theorem initialize_vdpau_va (env : Env) (w : World) :
    (initialize_vdpau env w).display.va = w.display.va := by
  unfold initialize_vdpau
  simp only [set_display, call_display, get_proc_helper_world, get_proc_helper_resolved]
  split_ifs <;> simp only [set_display, call_display]

theorem initialize_vdpau_va_available (env : Env) (w : World) :
    (initialize_vdpau env w).display.va_available = w.display.va_available := by
  unfold initialize_vdpau
  simp only [set_display, call_display, get_proc_helper_world, get_proc_helper_resolved]
  split_ifs <;> simp only [set_display, call_display]

theorem initialize_vdpau_lock_held (env : Env) (w : World) :
    (initialize_vdpau env w).display.lock_held = w.display.lock_held := by
  unfold initialize_vdpau
  simp only [set_display, call_display, get_proc_helper_world, get_proc_helper_resolved]
  split_ifs <;> simp only [set_display, call_display]

theorem open_display_hwdec_x (config : Config) (env : Env) (w : World) :
    (open_display_hwdec config env w).display.x = w.display.x := by
  unfold open_display_hwdec
  simp only [set_display, call_display]
  split_ifs <;> simp only [initialize_vdpau_x, initialize_vaapi_x, set_display]

theorem open_display_hwdec_dri_fd (config : Config) (env : Env) (w : World) :
    (open_display_hwdec config env w).display.dri_fd = w.display.dri_fd := by
  unfold open_display_hwdec
  simp only [set_display, call_display]
  split_ifs <;> simp only [initialize_vdpau_dri_fd, initialize_vaapi_dri_fd, set_display]

theorem open_display_hwdec_lock_held (config : Config) (env : Env) (w : World) :
    (open_display_hwdec config env w).display.lock_held = w.display.lock_held := by
  unfold open_display_hwdec
  simp only [set_display, call_display]
  split_ifs <;> simp only [initialize_vdpau_lock_held, initialize_vaapi_lock_held, set_display]

/-! ## Display: closed forms of the stages -/

theorem initialize_vaapi_va (env : Env) (w : World) :
    (initialize_vaapi env w).display.va = env.vaGetDisplay := by
  unfold initialize_vaapi
  simp only [set_display, call_display]
  split_ifs <;> simp only [set_display, call_display]

theorem initialize_vaapi_va_available (env : Env) (w : World) :
    (initialize_vaapi env w).display.va_available =
      if env.vaInitialize = VA_STATUS_SUCCESS then 1 else w.display.va_available := by
  unfold initialize_vaapi
  simp only [set_display, call_display]
  split_ifs <;> simp only [set_display, call_display]

theorem initialize_vdpau_vdp_get_proc_address (env : Env) (w : World) :
    (initialize_vdpau env w).display.vdp_get_proc_address =
      env.vdp_device_create_x11.2.2.getD w.display.vdp_get_proc_address := by
  unfold initialize_vdpau
  simp only [set_display, call_display, get_proc_helper_world, get_proc_helper_resolved]
  split_ifs <;> simp only [set_display, call_display]

theorem initialize_vdpau_vdp_device_destroy (env : Env) (w : World) :
    (initialize_vdpau env w).display.vdp_device_destroy =
      if env.vdp_device_create_x11.1 = VDP_STATUS_OK ∧
          env.vdp_device_create_x11.2.2.getD w.display.vdp_get_proc_address ≠ NULL then
        resolved_proc env .DEVICE_DESTROY
      else w.display.vdp_device_destroy := by
  unfold initialize_vdpau
  simp only [set_display, call_display, get_proc_helper_world, get_proc_helper_resolved]
  split_ifs <;> simp only [set_display, call_display]

theorem all_resolved_iff (r : VdpFuncId → Ptr) :
    (r .GET_ERROR_STRING ≠ NULL ∧ r .GET_INFORMATION_STRING ≠ NULL ∧
      r .DEVICE_DESTROY ≠ NULL ∧ r .DECODER_CREATE ≠ NULL ∧ r .DECODER_DESTROY ≠ NULL ∧
      r .DECODER_RENDER ≠ NULL ∧ r .VIDEO_SURFACE_CREATE ≠ NULL ∧
      r .VIDEO_SURFACE_DESTROY ≠ NULL ∧ r .PRESENTATION_QUEUE_TARGET_CREATE_X11 ≠ NULL ∧
      r .PRESENTATION_QUEUE_TARGET_DESTROY ≠ NULL ∧ r .PRESENTATION_QUEUE_CREATE ≠ NULL ∧
      r .PRESENTATION_QUEUE_DESTROY ≠ NULL ∧ r .PRESENTATION_QUEUE_DISPLAY ≠ NULL ∧
      r .OUTPUT_SURFACE_CREATE ≠ NULL ∧ r .OUTPUT_SURFACE_DESTROY ≠ NULL ∧
      r .VIDEO_MIXER_CREATE ≠ NULL ∧ r .VIDEO_MIXER_DESTROY ≠ NULL ∧
      r .VIDEO_MIXER_RENDER ≠ NULL) ↔ ∀ id, r id ≠ NULL := by
  constructor
  · rintro ⟨h1, h2, h3, h4, h5, h6, h7, h8, h9, h10, h11, h12, h13, h14, h15, h16, h17, h18⟩ id
    cases id <;> assumption
  · intro h
    exact ⟨h _, h _, h _, h _, h _, h _, h _, h _, h _, h _, h _, h _, h _, h _, h _, h _,
      h _, h _⟩

theorem initialize_vdpau_vdpau_available (env : Env) (w : World) :
    (initialize_vdpau env w).display.vdpau_available =
      if env.vdp_device_create_x11.1 = VDP_STATUS_OK ∧
          env.vdp_device_create_x11.2.2.getD w.display.vdp_get_proc_address ≠ NULL then
        if (resolved_proc env .GET_ERROR_STRING ≠ NULL ∧
            resolved_proc env .GET_INFORMATION_STRING ≠ NULL ∧
            resolved_proc env .DEVICE_DESTROY ≠ NULL ∧
            resolved_proc env .DECODER_CREATE ≠ NULL ∧
            resolved_proc env .DECODER_DESTROY ≠ NULL ∧
            resolved_proc env .DECODER_RENDER ≠ NULL ∧
            resolved_proc env .VIDEO_SURFACE_CREATE ≠ NULL ∧
            resolved_proc env .VIDEO_SURFACE_DESTROY ≠ NULL ∧
            resolved_proc env .PRESENTATION_QUEUE_TARGET_CREATE_X11 ≠ NULL ∧
            resolved_proc env .PRESENTATION_QUEUE_TARGET_DESTROY ≠ NULL ∧
            resolved_proc env .PRESENTATION_QUEUE_CREATE ≠ NULL ∧
            resolved_proc env .PRESENTATION_QUEUE_DESTROY ≠ NULL ∧
            resolved_proc env .PRESENTATION_QUEUE_DISPLAY ≠ NULL ∧
            resolved_proc env .OUTPUT_SURFACE_CREATE ≠ NULL ∧
            resolved_proc env .OUTPUT_SURFACE_DESTROY ≠ NULL ∧
            resolved_proc env .VIDEO_MIXER_CREATE ≠ NULL ∧
            resolved_proc env .VIDEO_MIXER_DESTROY ≠ NULL ∧
            resolved_proc env .VIDEO_MIXER_RENDER ≠ NULL) then 1
        else w.display.vdpau_available
      else w.display.vdpau_available := by
  unfold initialize_vdpau
  simp only [set_display, call_display, get_proc_helper_world, get_proc_helper_resolved]
  split_ifs <;> simp only [set_display, call_display]

theorem initialize_vdpau_vdpau_available_iff (env : Env) (w : World)
    (h0 : w.display.vdpau_available = 0) :
    ((initialize_vdpau env w).display.vdpau_available = 1 ↔
      env.vdp_device_create_x11.1 = VDP_STATUS_OK ∧
      env.vdp_device_create_x11.2.2.getD w.display.vdp_get_proc_address ≠ NULL ∧
      ∀ id, resolved_proc env id ≠ NULL) ∧
    ((initialize_vdpau env w).display.vdpau_available = 0 ∨
      (initialize_vdpau env w).display.vdpau_available = 1) := by
  have hall := all_resolved_iff (resolved_proc env)
  simp only [initialize_vdpau_vdpau_available, h0]
  split_ifs with h1 h2
  · exact ⟨⟨fun _ => ⟨h1.1, h1.2, hall.1 h2⟩, fun _ => rfl⟩, Or.inr rfl⟩
  · exact ⟨⟨fun h => absurd h (by decide), fun h => absurd (hall.2 h.2.2) h2⟩, Or.inl rfl⟩
  · exact ⟨⟨fun h => absurd h (by decide), fun h => absurd ⟨h.1, h.2.1⟩ h1⟩, Or.inl rfl⟩

theorem open_display_hwdec_va_eq (config : Config) (env : Env) (w : World) :
    (open_display_hwdec config env w).display.va =
      if config.enable_hwdec ≠ 0 ∧ config.enable_vaapi ≠ 0 then env.vaGetDisplay
      else w.display.va := by
  unfold open_display_hwdec
  simp only [set_display, call_display]
  split_ifs <;> simp_all [initialize_vaapi_va, initialize_vdpau_va]

theorem open_display_hwdec_va_available_eq (config : Config) (env : Env) (w : World) :
    (open_display_hwdec config env w).display.va_available =
      if config.enable_hwdec ≠ 0 ∧ config.enable_vaapi ≠ 0 ∧
          env.vaInitialize = VA_STATUS_SUCCESS then 1 else 0 := by
  unfold open_display_hwdec
  simp only [set_display, call_display]
  split_ifs <;> simp_all [initialize_vaapi_va_available, initialize_vdpau_va_available]

theorem open_display_hwdec_vdp_get_proc_address_eq (config : Config) (env : Env)
    (w : World) :
    (open_display_hwdec config env w).display.vdp_get_proc_address =
      if config.enable_hwdec ≠ 0 ∧ config.enable_vdpau ≠ 0 then
        env.vdp_device_create_x11.2.2.getD w.display.vdp_get_proc_address
      else w.display.vdp_get_proc_address := by
  unfold open_display_hwdec
  simp only [set_display, call_display]
  split_ifs <;> simp_all [initialize_vdpau_vdp_get_proc_address, initialize_vaapi_vdp_get_proc_address]

theorem open_display_hwdec_vdp_device_destroy_eq (config : Config) (env : Env)
    (w : World) :
    (open_display_hwdec config env w).display.vdp_device_destroy =
      if config.enable_hwdec ≠ 0 ∧ config.enable_vdpau ≠ 0 ∧
          env.vdp_device_create_x11.1 = VDP_STATUS_OK ∧
          env.vdp_device_create_x11.2.2.getD w.display.vdp_get_proc_address ≠ NULL then
        resolved_proc env .DEVICE_DESTROY
      else w.display.vdp_device_destroy := by
  unfold open_display_hwdec
  simp only [set_display, call_display]
  split_ifs <;> simp_all [initialize_vdpau_vdp_device_destroy, initialize_vaapi_vdp_device_destroy,
    initialize_vaapi_vdp_get_proc_address]

theorem open_display_hwdec_vdpau_available_iff (config : Config) (env : Env) (w : World) :
    ((open_display_hwdec config env w).display.vdpau_available = 1 ↔
      config.enable_hwdec ≠ 0 ∧ config.enable_vdpau ≠ 0 ∧
      env.vdp_device_create_x11.1 = VDP_STATUS_OK ∧
      env.vdp_device_create_x11.2.2.getD w.display.vdp_get_proc_address ≠ NULL ∧
      ∀ id, resolved_proc env id ≠ NULL) ∧
    ((open_display_hwdec config env w).display.vdpau_available = 0 ∨
      (open_display_hwdec config env w).display.vdpau_available = 1) := by
  unfold open_display_hwdec
  by_cases h1 : config.enable_hwdec ≠ 0
  · by_cases h3 : config.enable_vdpau ≠ 0
    · by_cases h2 : config.enable_vaapi ≠ 0
      · simp only [if_pos h1, if_pos h2, if_pos h3]
        have := initialize_vdpau_vdpau_available_iff env
          (initialize_vaapi env
            ((w.set fun d => { d with va_available := 0 }).set fun d =>
              { d with vdpau_available := 0 }))
          (by simp only [initialize_vaapi_vdpau_available, set_display])
        simp only [initialize_vaapi_vdp_get_proc_address, set_display] at this
        exact ⟨⟨fun h => ⟨h1, h3, this.1.1 h⟩, fun h => this.1.2 h.2.2⟩, this.2⟩
      · simp only [if_pos h1, if_neg h2, if_pos h3]
        have := initialize_vdpau_vdpau_available_iff env
          ((w.set fun d => { d with va_available := 0 }).set fun d =>
              { d with vdpau_available := 0 })
          (by simp only [set_display])
        simp only [set_display] at this
        exact ⟨⟨fun h => ⟨h1, h3, this.1.1 h⟩, fun h => this.1.2 h.2.2⟩, this.2⟩
    · by_cases h2 : config.enable_vaapi ≠ 0
      · simp only [if_pos h1, if_pos h2, if_neg h3, initialize_vaapi_vdpau_available,
          set_display]
        exact ⟨⟨fun h => absurd h (by decide), fun h => absurd h.2.1 h3⟩, Or.inl trivial⟩
      · simp only [if_pos h1, if_neg h2, if_neg h3, set_display]
        exact ⟨⟨fun h => absurd h (by decide), fun h => absurd h.2.1 h3⟩, Or.inl trivial⟩
  · simp only [if_neg h1, set_display]
    exact ⟨⟨fun h => absurd h (by decide), fun h => absurd h.1 h1⟩, Or.inl trivial⟩

/-! ## Display: `open_display_resources` and `tables_open_display` -/

theorem ite_call_display (c : Prop) [Decidable c] (w : World) (k : Call) :
    (if c then w.call k else w).display = w.display := by
  split <;> rfl

theorem open_display_resources_x (HAVE_HWDEC : Bool) (config : Config) (env : Env)
    (w : World) :
    (open_display_resources HAVE_HWDEC config env w).display.x = w.display.x := by
  unfold open_display_resources
  simp only [query_xrender_x, determine_min_size_x, check_glx_extensions_x, set_display,
    call_display]
  cases HAVE_HWDEC
  · simp only [Bool.false_eq_true, if_false, set_display, call_display]
    simp only [ite_call_display]
  · simp only [if_true, open_display_hwdec_x, set_display, call_display]
    simp only [ite_call_display]

theorem open_display_resources_lock_held (HAVE_HWDEC : Bool) (config : Config) (env : Env)
    (w : World) :
    (open_display_resources HAVE_HWDEC config env w).display.lock_held =
      w.display.lock_held := by
  unfold open_display_resources
  simp only [query_xrender_lock_held, determine_min_size_lock_held,
    check_glx_extensions_lock_held, set_display, call_display]
  cases HAVE_HWDEC
  · simp only [Bool.false_eq_true, if_false, set_display, call_display]
    simp only [ite_call_display]
  · simp only [if_true, open_display_hwdec_lock_held, set_display, call_display]
    simp only [ite_call_display]

theorem open_display_resources_dri_fd (HAVE_HWDEC : Bool) (config : Config) (env : Env)
    (w : World) :
    (open_display_resources HAVE_HWDEC config env w).display.dri_fd = env.open_dri_card0 := by
  unfold open_display_resources
  simp only [query_xrender_dri_fd, determine_min_size_dri_fd, check_glx_extensions_dri_fd,
    set_display, call_display]
  cases HAVE_HWDEC
  · simp only [Bool.false_eq_true, if_false, set_display, call_display]
  · simp only [if_true, open_display_hwdec_dri_fd, set_display, call_display]

theorem open_display_resources_transparent_cursor (HAVE_HWDEC : Bool) (config : Config)
    (env : Env) (w : World) :
    (open_display_resources HAVE_HWDEC config env w).display.transparent_cursor =
      env.XCreatePixmapCursor := by
  unfold open_display_resources
  simp only [query_xrender_transparent_cursor, determine_min_size_transparent_cursor,
    set_display, call_display]

theorem open_display_resources_va (HAVE_HWDEC : Bool) (config : Config) (env : Env)
    (w : World) :
    (open_display_resources HAVE_HWDEC config env w).display.va =
      if HAVE_HWDEC = true ∧ config.enable_hwdec ≠ 0 ∧ config.enable_vaapi ≠ 0 then
        env.vaGetDisplay
      else w.display.va := by
  unfold open_display_resources
  simp only [query_xrender_va, determine_min_size_va, check_glx_extensions_va, set_display,
    call_display]
  cases HAVE_HWDEC
  · simp only [Bool.false_eq_true, if_false, false_and, set_display, call_display]
    simp only [ite_call_display]
  · simp only [if_true, true_and, open_display_hwdec_va_eq, set_display, call_display]
    simp only [ite_call_display]

theorem open_display_resources_va_available (config : Config) (env : Env) (w : World) :
    (open_display_resources true config env w).display.va_available =
      if config.enable_hwdec ≠ 0 ∧ config.enable_vaapi ≠ 0 ∧
          env.vaInitialize = VA_STATUS_SUCCESS then 1 else 0 := by
  unfold open_display_resources
  simp only [query_xrender_va_available, determine_min_size_va_available,
    check_glx_extensions_va_available, set_display, call_display, if_true,
    open_display_hwdec_va_available_eq]

theorem open_display_resources_vdp_get_proc_address (HAVE_HWDEC : Bool) (config : Config)
    (env : Env) (w : World) :
    (open_display_resources HAVE_HWDEC config env w).display.vdp_get_proc_address =
      if HAVE_HWDEC = true ∧ config.enable_hwdec ≠ 0 ∧ config.enable_vdpau ≠ 0 then
        env.vdp_device_create_x11.2.2.getD w.display.vdp_get_proc_address
      else w.display.vdp_get_proc_address := by
  unfold open_display_resources
  simp only [query_xrender_vdp_get_proc_address, determine_min_size_vdp_get_proc_address,
    check_glx_extensions_vdp_get_proc_address, call_display, set_display]
  cases HAVE_HWDEC
  · simp only [Bool.false_eq_true, if_false, false_and, set_display, call_display,
      ite_call_display]
  · simp only [if_true, true_and, open_display_hwdec_vdp_get_proc_address_eq, set_display,
      call_display, ite_call_display]

theorem open_display_resources_vdp_device_destroy (HAVE_HWDEC : Bool) (config : Config)
    (env : Env) (w : World) :
    (open_display_resources HAVE_HWDEC config env w).display.vdp_device_destroy =
      if HAVE_HWDEC = true ∧ config.enable_hwdec ≠ 0 ∧ config.enable_vdpau ≠ 0 ∧
          env.vdp_device_create_x11.1 = VDP_STATUS_OK ∧
          env.vdp_device_create_x11.2.2.getD w.display.vdp_get_proc_address ≠ NULL then
        resolved_proc env .DEVICE_DESTROY
      else w.display.vdp_device_destroy := by
  unfold open_display_resources
  simp only [query_xrender_vdp_device_destroy, determine_min_size_vdp_device_destroy,
    check_glx_extensions_vdp_device_destroy, call_display, set_display]
  cases HAVE_HWDEC
  · simp only [Bool.false_eq_true, if_false, false_and, set_display, call_display,
      ite_call_display]
  · simp only [if_true, true_and, open_display_hwdec_vdp_device_destroy_eq, set_display,
      call_display, ite_call_display]

theorem open_display_resources_vdpau_available (config : Config) (env : Env) (w : World) :
    ((open_display_resources true config env w).display.vdpau_available = 1 ↔
      config.enable_hwdec ≠ 0 ∧ config.enable_vdpau ≠ 0 ∧
      env.vdp_device_create_x11.1 = VDP_STATUS_OK ∧
      env.vdp_device_create_x11.2.2.getD w.display.vdp_get_proc_address ≠ NULL ∧
      ∀ id, resolved_proc env id ≠ NULL) ∧
    ((open_display_resources true config env w).display.vdpau_available = 0 ∨
      (open_display_resources true config env w).display.vdpau_available = 1) := by
  unfold open_display_resources
  simp only [query_xrender_vdpau_available, determine_min_size_vdpau_available,
    check_glx_extensions_vdpau_available, call_display, set_display, if_true]
  have := open_display_hwdec_vdpau_available_iff config env
    (((if config.x_synchronize ≠ 0 then w.call (Call.XSynchronize w.display.x)
        else w).call Call.open_dri_card0).set fun d =>
          { d with dri_fd := env.open_dri_card0 })
  simp only [set_display, call_display, ite_call_display] at this
  exact this

theorem tables_open_display_eq (HAVE_HWDEC : Bool) (config : Config) (env : Env)
    (w : World) :
    tables_open_display HAVE_HWDEC config env w =
      if env.XOpenDisplay = NULL then
        (pthread_mutex_unlock (open_display_connect env w), 1)
      else
        (pthread_mutex_unlock
          (open_display_resources HAVE_HWDEC config env (open_display_connect env w)), 0) := by
  have hx : (open_display_connect env w).display.x = env.XOpenDisplay := by
    simp only [open_display_connect, set_display]
  unfold tables_open_display
  simp only [hx]

theorem open_display_connect_calls (env : Env) (w : World) :
    (open_display_connect env w).calls =
      w.calls ++ [Call.pthread_mutexattr_init, Call.pthread_mutexattr_settype,
        Call.pthread_mutex_init, Call.pthread_mutex_lock, Call.XOpenDisplay] := by
  simp only [open_display_connect, pthread_mutexattr_init, pthread_mutexattr_settype,
    pthread_mutex_init, pthread_mutex_lock, set_calls, call_calls, List.append_assoc,
    List.singleton_append, List.cons_append, List.nil_append]

theorem open_display_connect_x (env : Env) (w : World) :
    (open_display_connect env w).display.x = env.XOpenDisplay := by
  simp only [open_display_connect, set_display]

theorem open_display_connect_lock_held (env : Env) (w : World) :
    (open_display_connect env w).display.lock_held = 1 := by
  simp only [open_display_connect, pthread_mutexattr_init, pthread_mutexattr_settype,
    pthread_mutex_init, pthread_mutex_lock, set_display, call_display, Nat.zero_add]

/-! ## Display: `tables_close_display` -/

theorem deinitialize_vaapi_calls (w : World) :
    (deinitialize_vaapi w).calls =
      w.calls ++ (if w.display.va ≠ NULL then [Call.vaTerminate w.display.va] else []) := by
  unfold deinitialize_vaapi
  simp only [set_calls]
  split <;> simp only [call_calls, List.append_nil]

theorem deinitialize_vaapi_display (w : World) :
    (deinitialize_vaapi w).display = { w.display with va := NULL } := by
  unfold deinitialize_vaapi
  simp only [set_display]
  split <;> simp only [call_display]

theorem deinitialize_vdpau_calls (w : World) :
    (deinitialize_vdpau w).calls =
      w.calls ++
        (if w.display.vdp_device_destroy ≠ NULL ∧ w.display.vdp_device ≠ VDP_INVALID_HANDLE
          then [Call.vdp_device_destroy w.display.vdp_device] else []) := by
  unfold deinitialize_vdpau
  split <;> simp only [set_calls, call_calls, List.append_nil]

theorem deinitialize_vdpau_display (w : World) :
    (deinitialize_vdpau w).display.dri_fd = w.display.dri_fd ∧
    (deinitialize_vdpau w).display.x = w.display.x ∧
    (deinitialize_vdpau w).display.transparent_cursor = w.display.transparent_cursor := by
  unfold deinitialize_vdpau
  split <;> simp only [set_display, call_display, and_self]

theorem close_display_hwdec_calls (config : Config) (w : World) :
    (close_display_hwdec config w).calls =
      w.calls ++
        (if config.enable_hwdec ≠ 0 ∧ config.enable_vaapi ≠ 0 ∧ w.display.va ≠ NULL
          then [Call.vaTerminate w.display.va] else []) ++
        (if config.enable_hwdec ≠ 0 ∧ config.enable_vdpau ≠ 0 ∧
            w.display.vdp_device_destroy ≠ NULL ∧ w.display.vdp_device ≠ VDP_INVALID_HANDLE
          then [Call.vdp_device_destroy w.display.vdp_device] else []) := by
  unfold close_display_hwdec
  by_cases h1 : config.enable_hwdec ≠ 0 <;> by_cases h2 : config.enable_vaapi ≠ 0 <;>
    by_cases h3 : config.enable_vdpau ≠ 0 <;>
    simp [deinitialize_vdpau_calls, deinitialize_vaapi_calls, deinitialize_vaapi_display,
      h1, h2, h3]

theorem close_display_hwdec_display (config : Config) (w : World) :
    (close_display_hwdec config w).display.dri_fd = w.display.dri_fd ∧
    (close_display_hwdec config w).display.x = w.display.x ∧
    (close_display_hwdec config w).display.transparent_cursor =
      w.display.transparent_cursor := by
  unfold close_display_hwdec
  split_ifs <;>
    simp only [deinitialize_vdpau_display, deinitialize_vaapi_display, and_self]

theorem close_display_calls (HAVE_HWDEC : Bool) (config : Config) (w : World) :
    (tables_close_display HAVE_HWDEC config w).calls =
      w.calls ++ [Call.pthread_mutex_lock, Call.screensaver_disconnect] ++
        (if HAVE_HWDEC = true ∧ config.enable_hwdec ≠ 0 ∧ config.enable_vaapi ≠ 0 ∧
            w.display.va ≠ NULL
          then [Call.vaTerminate w.display.va] else []) ++
        (if HAVE_HWDEC = true ∧ config.enable_hwdec ≠ 0 ∧ config.enable_vdpau ≠ 0 ∧
            w.display.vdp_device_destroy ≠ NULL ∧ w.display.vdp_device ≠ VDP_INVALID_HANDLE
          then [Call.vdp_device_destroy w.display.vdp_device] else []) ++
        [Call.close w.display.dri_fd,
          Call.XFreeCursor w.display.x w.display.transparent_cursor,
          Call.XCloseDisplay w.display.x, Call.pthread_mutex_unlock,
          Call.pthread_mutex_destroy, Call.pthread_mutexattr_destroy] := by
  unfold tables_close_display
  cases HAVE_HWDEC
  · simp only [Bool.false_eq_true, if_false, false_and, pthread_mutex_lock,
      pthread_mutex_unlock, pthread_mutex_destroy, pthread_mutexattr_destroy, set_calls,
      call_calls, set_display, call_display, List.append_nil, List.append_assoc,
      List.singleton_append, List.cons_append, List.nil_append]
  · have hd := close_display_hwdec_display config
      (((w.call Call.pthread_mutex_lock).set fun d =>
        { d with lock_held := d.lock_held + 1 }).call Call.screensaver_disconnect)
    simp only [set_display, call_display] at hd
    simp only [if_true, true_and, pthread_mutex_lock, pthread_mutex_unlock,
      pthread_mutex_destroy, pthread_mutexattr_destroy, set_calls, call_calls, set_display,
      call_display, close_display_hwdec_calls, hd, List.append_assoc,
      List.singleton_append, List.cons_append, List.nil_append]

/-! ## Display: results of `tables_open_display` -/

theorem open_display_ok (HAVE_HWDEC : Bool) (config : Config) (env : Env) (w : World)
    (hx : env.XOpenDisplay ≠ NULL) :
    tables_open_display HAVE_HWDEC config env w =
      (pthread_mutex_unlock
        (open_display_resources HAVE_HWDEC config env (open_display_connect env w)), 0) := by
  rw [tables_open_display_eq, if_neg hx]

theorem open_display_fail (HAVE_HWDEC : Bool) (config : Config) (env : Env) (w : World)
    (hx : env.XOpenDisplay = NULL) :
    tables_open_display HAVE_HWDEC config env w =
      (pthread_mutex_unlock (open_display_connect env w), 1) := by
  rw [tables_open_display_eq, if_pos hx]

theorem opened_ok (HAVE_HWDEC : Bool) (config : Config) (env : Env) (w : World)
    (hx : env.XOpenDisplay ≠ NULL) :
    opened HAVE_HWDEC config env w =
      (pthread_mutex_unlock
        (open_display_resources HAVE_HWDEC config env (open_display_connect env w))).display := by
  unfold opened
  rw [open_display_ok _ _ _ _ hx]

theorem opened_fail (HAVE_HWDEC : Bool) (config : Config) (env : Env) (w : World)
    (hx : env.XOpenDisplay = NULL) :
    opened HAVE_HWDEC config env w =
      (pthread_mutex_unlock (open_display_connect env w)).display := by
  unfold opened
  rw [open_display_fail _ _ _ _ hx]

theorem opened_x (HAVE_HWDEC : Bool) (config : Config) (env : Env) (w : World) :
    (opened HAVE_HWDEC config env w).x = env.XOpenDisplay := by
  by_cases hx : env.XOpenDisplay = NULL
  · rw [opened_fail _ _ _ _ hx, pthread_mutex_unlock_x, open_display_connect_x]
  · rw [opened_ok _ _ _ _ hx, pthread_mutex_unlock_x, open_display_resources_x,
      open_display_connect_x]

theorem opened_dri_fd (HAVE_HWDEC : Bool) (config : Config) (env : Env) (w : World)
    (hx : env.XOpenDisplay ≠ NULL) :
    (opened HAVE_HWDEC config env w).dri_fd = env.open_dri_card0 := by
  rw [opened_ok _ _ _ _ hx, pthread_mutex_unlock_dri_fd, open_display_resources_dri_fd]

theorem opened_transparent_cursor (HAVE_HWDEC : Bool) (config : Config) (env : Env)
    (w : World) (hx : env.XOpenDisplay ≠ NULL) :
    (opened HAVE_HWDEC config env w).transparent_cursor = env.XCreatePixmapCursor := by
  rw [opened_ok _ _ _ _ hx, pthread_mutex_unlock_transparent_cursor,
    open_display_resources_transparent_cursor]

theorem opened_va (HAVE_HWDEC : Bool) (config : Config) (env : Env) (w : World) :
    (opened HAVE_HWDEC config env w).va =
      if env.XOpenDisplay ≠ NULL ∧ HAVE_HWDEC = true ∧ config.enable_hwdec ≠ 0 ∧
          config.enable_vaapi ≠ 0 then env.vaGetDisplay
      else w.display.va := by
  by_cases hx : env.XOpenDisplay = NULL
  · rw [opened_fail _ _ _ _ hx, pthread_mutex_unlock_va, open_display_connect_va]
    simp [hx]
  · rw [opened_ok _ _ _ _ hx, pthread_mutex_unlock_va, open_display_resources_va,
      open_display_connect_va]
    simp [hx]

theorem opened_va_available (config : Config) (env : Env) (w : World)
    (hx : env.XOpenDisplay ≠ NULL) :
    (opened true config env w).va_available =
      if config.enable_hwdec ≠ 0 ∧ config.enable_vaapi ≠ 0 ∧
          env.vaInitialize = VA_STATUS_SUCCESS then 1 else 0 := by
  rw [opened_ok _ _ _ _ hx, pthread_mutex_unlock_va_available,
    open_display_resources_va_available]

theorem opened_vdp_get_proc_address (HAVE_HWDEC : Bool) (config : Config) (env : Env)
    (w : World) :
    (opened HAVE_HWDEC config env w).vdp_get_proc_address =
      if env.XOpenDisplay ≠ NULL ∧ HAVE_HWDEC = true ∧ config.enable_hwdec ≠ 0 ∧
          config.enable_vdpau ≠ 0 then
        env.vdp_device_create_x11.2.2.getD w.display.vdp_get_proc_address
      else w.display.vdp_get_proc_address := by
  by_cases hx : env.XOpenDisplay = NULL
  · rw [opened_fail _ _ _ _ hx, pthread_mutex_unlock_vdp_get_proc_address,
      open_display_connect_vdp_get_proc_address]
    simp [hx]
  · rw [opened_ok _ _ _ _ hx, pthread_mutex_unlock_vdp_get_proc_address,
      open_display_resources_vdp_get_proc_address, open_display_connect_vdp_get_proc_address]
    simp [hx]

theorem opened_vdp_device_destroy (HAVE_HWDEC : Bool) (config : Config) (env : Env)
    (w : World) :
    (opened HAVE_HWDEC config env w).vdp_device_destroy =
      if env.XOpenDisplay ≠ NULL ∧ HAVE_HWDEC = true ∧ config.enable_hwdec ≠ 0 ∧
          config.enable_vdpau ≠ 0 ∧ env.vdp_device_create_x11.1 = VDP_STATUS_OK ∧
          env.vdp_device_create_x11.2.2.getD w.display.vdp_get_proc_address ≠ NULL then
        resolved_proc env .DEVICE_DESTROY
      else w.display.vdp_device_destroy := by
  by_cases hx : env.XOpenDisplay = NULL
  · rw [opened_fail _ _ _ _ hx, pthread_mutex_unlock_vdp_device_destroy,
      open_display_connect_vdp_device_destroy]
    simp [hx]
  · rw [opened_ok _ _ _ _ hx, pthread_mutex_unlock_vdp_device_destroy,
      open_display_resources_vdp_device_destroy, open_display_connect_vdp_device_destroy,
      open_display_connect_vdp_get_proc_address]
    simp [hx]

theorem opened_vdpau_available (config : Config) (env : Env) (w : World)
    (hx : env.XOpenDisplay ≠ NULL) :
    ((opened true config env w).vdpau_available = 1 ↔
      config.enable_hwdec ≠ 0 ∧ config.enable_vdpau ≠ 0 ∧
      env.vdp_device_create_x11.1 = VDP_STATUS_OK ∧
      env.vdp_device_create_x11.2.2.getD w.display.vdp_get_proc_address ≠ NULL ∧
      ∀ id, resolved_proc env id ≠ NULL) ∧
    ((opened true config env w).vdpau_available = 0 ∨
      (opened true config env w).vdpau_available = 1) := by
  rw [opened_ok _ _ _ _ hx, pthread_mutex_unlock_vdpau_available]
  have := open_display_resources_vdpau_available config env (open_display_connect env w)
  rw [open_display_connect_vdp_get_proc_address] at this
  exact this

theorem teardown_calls_eq (HAVE_HWDEC : Bool) (config : Config) (d : display_s) :
    teardown_calls HAVE_HWDEC config d =
      [Call.pthread_mutex_lock, Call.screensaver_disconnect] ++
        (if HAVE_HWDEC = true ∧ config.enable_hwdec ≠ 0 ∧ config.enable_vaapi ≠ 0 ∧
            d.va ≠ NULL
          then [Call.vaTerminate d.va] else []) ++
        (if HAVE_HWDEC = true ∧ config.enable_hwdec ≠ 0 ∧ config.enable_vdpau ≠ 0 ∧
            d.vdp_device_destroy ≠ NULL ∧ d.vdp_device ≠ VDP_INVALID_HANDLE
          then [Call.vdp_device_destroy d.vdp_device] else []) ++
        [Call.close d.dri_fd, Call.XFreeCursor d.x d.transparent_cursor,
          Call.XCloseDisplay d.x, Call.pthread_mutex_unlock, Call.pthread_mutex_destroy,
          Call.pthread_mutexattr_destroy] := by
  unfold teardown_calls
  rw [close_display_calls]
  simp only [List.nil_append]

theorem vaTerminate_mem_teardown (HAVE_HWDEC : Bool) (config : Config) (d : display_s)
    (va : Ptr) :
    Call.vaTerminate va ∈ teardown_calls HAVE_HWDEC config d ↔
      HAVE_HWDEC = true ∧ config.enable_hwdec ≠ 0 ∧ config.enable_vaapi ≠ 0 ∧ d.va ≠ NULL ∧
        va = d.va := by
  rw [teardown_calls_eq]
  split_ifs <;> simp <;> tauto

theorem vdp_device_destroy_mem_teardown (HAVE_HWDEC : Bool) (config : Config)
    (d : display_s) (dev : Nat) :
    Call.vdp_device_destroy dev ∈ teardown_calls HAVE_HWDEC config d ↔
      HAVE_HWDEC = true ∧ config.enable_hwdec ≠ 0 ∧ config.enable_vdpau ≠ 0 ∧
        d.vdp_device_destroy ≠ NULL ∧ d.vdp_device ≠ VDP_INVALID_HANDLE ∧
        dev = d.vdp_device := by
  rw [teardown_calls_eq]
  split_ifs <;> simp <;> tauto

/-! ## Display: claims on opening, VDPAU activation and teardown -/

/-- C4: when `tables_open_display` runs `initialize_vdpau` (display opened, hardware
decoding and VDPAU enabled), `get_proc_helper` returns `NULL` exactly when the lookup
status is not OK or the returned pointer is null; `display.vdp_get_proc_address` ends up as
the function `vdp_device_create_x11` stored through its out-parameter (the previous value
of the field if the call left it unwritten); `display.vdpau_available` is 1 exactly when
device creation returned OK, that get-proc-address function is non-null and all 18 entry
points resolve non-null, and it is 0 otherwise; in particular it is 0 when device creation
succeeds but some entry point resolves to `NULL`. -/
theorem vdpau_activation_all_or_nothing (config : Config) (env : Env) (w : World)
    (hx : env.XOpenDisplay ≠ NULL) (hh : config.enable_hwdec ≠ 0)
    (hv : config.enable_vdpau ≠ 0) :
    (∀ w' id, (get_proc_helper env w' id).2 = NULL ↔
      ((env.vdp_get_proc_address id).1 ≠ VDP_STATUS_OK ∨
        (env.vdp_get_proc_address id).2 = NULL)) ∧
    (tables_open_display true config env w).1.display.vdp_get_proc_address =
      env.vdp_device_create_x11.2.2.getD w.display.vdp_get_proc_address ∧
    ((tables_open_display true config env w).1.display.vdpau_available = 1 ↔
      (env.vdp_device_create_x11.1 = VDP_STATUS_OK ∧
        env.vdp_device_create_x11.2.2.getD w.display.vdp_get_proc_address ≠ NULL ∧
        ∀ id, (get_proc_helper env w id).2 ≠ NULL)) ∧
    ((tables_open_display true config env w).1.display.vdpau_available = 1 ↔
      (env.vdp_device_create_x11.1 = VDP_STATUS_OK ∧
        (tables_open_display true config env w).1.display.vdp_get_proc_address ≠ NULL ∧
        ∀ id, (get_proc_helper env w id).2 ≠ NULL)) ∧
    ((tables_open_display true config env w).1.display.vdpau_available = 0 ∨
      (tables_open_display true config env w).1.display.vdpau_available = 1) ∧
    (env.vdp_device_create_x11.1 = VDP_STATUS_OK →
      (∃ id, (get_proc_helper env w id).2 = NULL) →
      (tables_open_display true config env w).1.display.vdpau_available = 0) := by
  have hav := opened_vdpau_available config env w hx
  have hgpa := opened_vdp_get_proc_address true config env w
  rw [if_pos ⟨hx, rfl, hh, hv⟩] at hgpa
  unfold opened at hav hgpa
  have hiff : (tables_open_display true config env w).1.display.vdpau_available = 1 ↔
      (env.vdp_device_create_x11.1 = VDP_STATUS_OK ∧
        env.vdp_device_create_x11.2.2.getD w.display.vdp_get_proc_address ≠ NULL ∧
        ∀ id, (get_proc_helper env w id).2 ≠ NULL) := by
    rw [hav.1]
    constructor
    · rintro ⟨_, _, h1, h2, h3⟩
      exact ⟨h1, h2, h3⟩
    · rintro ⟨h1, h2, h3⟩
      exact ⟨hh, hv, h1, h2, h3⟩
  have hiff2 : (tables_open_display true config env w).1.display.vdpau_available = 1 ↔
      (env.vdp_device_create_x11.1 = VDP_STATUS_OK ∧
        (tables_open_display true config env w).1.display.vdp_get_proc_address ≠ NULL ∧
        ∀ id, (get_proc_helper env w id).2 ≠ NULL) := by
    rw [hgpa]
    exact hiff
  refine ⟨?_, hgpa, hiff, hiff2, hav.2, ?_⟩
  · intro w' id
    rw [get_proc_helper_result]
    by_cases hs : (env.vdp_get_proc_address id).1 = VDP_STATUS_OK
    · simp [hs]
    · simp [hs]
  · intro _ hex
    rcases hav.2 with h0 | h1
    · exact h0
    · obtain ⟨id, hid⟩ := hex
      exact absurd hid ((hiff.1 h1).2.2 id)

/-- C4 at two concrete runs, the device being created with a non-null get-proc-address
function in both: when `VDP_FUNC_ID_DECODER_RENDER` alone resolves to `NULL`,
`vdpau_available` is 0; when all 18 entry points resolve, it is 1. -/
theorem vdpau_activation_all_or_nothing_witness :
    (tables_open_display true config_vdpau env_vdpau_one_missing
      world_zero).1.display.vdpau_available = 0 ∧
    (tables_open_display true config_vdpau env_vdpau_all_resolved
      world_zero).1.display.vdpau_available = 1 :=
  ⟨(vdpau_activation_all_or_nothing config_vdpau env_vdpau_one_missing world_zero
      (by decide) (by decide) (by decide)).2.2.2.2.2 rfl ⟨VdpFuncId.DECODER_RENDER, rfl⟩,
   (vdpau_activation_all_or_nothing config_vdpau env_vdpau_all_resolved world_zero
      (by decide) (by decide) (by decide)).2.2.1.2
      ⟨rfl, by decide, fun id => by cases id <;> decide⟩⟩

/-- C5: `tables_open_display` returns a non-zero status exactly when `XOpenDisplay`
returns `NULL`.  In that case the calls made are the four lock set-up calls,
`XOpenDisplay` and `pthread_mutex_unlock`, and `display` is unchanged except for `x` and
the lock with its attribute; in every other case the status is 0.  In both cases the lock
is not held afterwards and the last call is `pthread_mutex_unlock`. -/
theorem open_display_status (HAVE_HWDEC : Bool) (config : Config) (env : Env) (w : World) :
    ((tables_open_display HAVE_HWDEC config env w).2 ≠ 0 ↔ env.XOpenDisplay = NULL) ∧
    (env.XOpenDisplay = NULL →
      (tables_open_display HAVE_HWDEC config env w).1.calls =
        w.calls ++ [Call.pthread_mutexattr_init, Call.pthread_mutexattr_settype,
          Call.pthread_mutex_init, Call.pthread_mutex_lock, Call.XOpenDisplay,
          Call.pthread_mutex_unlock] ∧
      (tables_open_display HAVE_HWDEC config env w).1.display =
        { w.display with
          x := NULL, mutex_attr_live := true, mutex_attr_recursive := true,
          lock_live := true, lock_held := 0 }) ∧
    (env.XOpenDisplay ≠ NULL → (tables_open_display HAVE_HWDEC config env w).2 = 0) ∧
    (tables_open_display HAVE_HWDEC config env w).1.display.lock_held = 0 ∧
    (tables_open_display HAVE_HWDEC config env w).1.calls.getLast? =
      some Call.pthread_mutex_unlock := by
  by_cases hx : env.XOpenDisplay = NULL
  · rw [open_display_fail _ _ _ _ hx]
    refine ⟨⟨fun _ => hx, fun _ => (by norm_num : (1 : Int) ≠ 0)⟩, fun _ => ⟨?_, ?_⟩,
      fun h => absurd hx h, ?_, ?_⟩
    · simp only [pthread_mutex_unlock, set_calls, call_calls, open_display_connect_calls,
        List.append_assoc, List.cons_append, List.nil_append]
    · simp only [pthread_mutex_unlock, open_display_connect, pthread_mutexattr_init,
        pthread_mutexattr_settype, pthread_mutex_init, pthread_mutex_lock, set_display,
        call_display, hx, Nat.zero_add, Nat.add_sub_cancel]
    · simp only [pthread_mutex_unlock, set_display, call_display,
        open_display_connect_lock_held, Nat.sub_self]
    · simp only [pthread_mutex_unlock, set_calls, call_calls, List.getLast?_append,
        List.getLast?_singleton]
      rfl
  · rw [open_display_ok _ _ _ _ hx]
    refine ⟨⟨fun h => absurd rfl h, fun h => absurd h hx⟩, fun h => absurd h hx,
      fun _ => rfl, ?_, ?_⟩
    · simp only [pthread_mutex_unlock, set_display, call_display,
        open_display_resources_lock_held, open_display_connect_lock_held, Nat.sub_self]
    · simp only [pthread_mutex_unlock, set_calls, call_calls, List.getLast?_append,
        List.getLast?_singleton]
      rfl

/-- C5 at a concrete run: `XOpenDisplay` returns `NULL` and the status is non-zero. -/
theorem open_display_status_witness :
    (tables_open_display true config_plain env_nothing world_zero).2 ≠ 0 :=
  (open_display_status true config_plain env_nothing world_zero).1.2 rfl

/-- C6 fails as stated: VA-API is enabled, `vaGetDisplay` returns handle 7 and
`vaInitialize` fails, so `va_available` is 0 after `tables_open_display`; yet
`tables_close_display` calls `vaTerminate` on handle 7. -/
theorem vaapi_terminate_after_failed_init :
    env_va_init_fails.vaInitialize ≠ VA_STATUS_SUCCESS ∧
    (opened true config_vaapi env_va_init_fails world_zero).va_available = 0 ∧
    Call.vaTerminate 7 ∈
      teardown_calls true config_vaapi
        (opened true config_vaapi env_va_init_fails world_zero) := by
  refine ⟨by decide, ?_, ?_⟩
  · rw [opened_va_available _ _ _ (by decide)]
    decide
  · rw [vaTerminate_mem_teardown, opened_va]
    decide

/-- C6 as amended.  VDPAU: `tables_close_display` calls `vdp_device_destroy` only if the
destroy pointer is non-null and the device handle is not `VDP_INVALID_HANDLE`, and then on
that handle; starting from a `display` whose destroy pointer is null, there is no such
call when VDPAU initialization was not attempted or device creation failed (status not OK,
or a null get-proc-address function), and after an attempt that failed `vdpau_available`
is 0.  VA-API: `vaTerminate` is called exactly when VA-API teardown is enabled and
`display.va` is non-null, and then on `display.va`; after an attempted initialization
`display.va` is the handle `vaGetDisplay` returned, whatever `vaInitialize` returned;
starting from a null `display.va`, there is no `vaTerminate` call when initialization was
not attempted. -/
theorem decode_teardown_calls (HAVE_HWDEC : Bool) (config : Config) (env : Env)
    (w : World) :
    (∀ dev, Call.vdp_device_destroy dev ∈
        teardown_calls HAVE_HWDEC config (opened HAVE_HWDEC config env w) →
      (opened HAVE_HWDEC config env w).vdp_device_destroy ≠ NULL ∧
      (opened HAVE_HWDEC config env w).vdp_device ≠ VDP_INVALID_HANDLE ∧
      dev = (opened HAVE_HWDEC config env w).vdp_device) ∧
    (w.display.vdp_device_destroy = NULL →
      (env.XOpenDisplay = NULL ∨ HAVE_HWDEC = false ∨ config.enable_hwdec = 0 ∨
        config.enable_vdpau = 0 ∨ env.vdp_device_create_x11.1 ≠ VDP_STATUS_OK ∨
        (opened HAVE_HWDEC config env w).vdp_get_proc_address = NULL) →
      ∀ dev, Call.vdp_device_destroy dev ∉
        teardown_calls HAVE_HWDEC config (opened HAVE_HWDEC config env w)) ∧
    (env.XOpenDisplay ≠ NULL → HAVE_HWDEC = true →
      (env.vdp_device_create_x11.1 ≠ VDP_STATUS_OK ∨
        (opened HAVE_HWDEC config env w).vdp_get_proc_address = NULL) →
      (opened HAVE_HWDEC config env w).vdpau_available = 0) ∧
    (∀ va, Call.vaTerminate va ∈
        teardown_calls HAVE_HWDEC config (opened HAVE_HWDEC config env w) ↔
      HAVE_HWDEC = true ∧ config.enable_hwdec ≠ 0 ∧ config.enable_vaapi ≠ 0 ∧
        (opened HAVE_HWDEC config env w).va ≠ NULL ∧
        va = (opened HAVE_HWDEC config env w).va) ∧
    (env.XOpenDisplay ≠ NULL → HAVE_HWDEC = true → config.enable_hwdec ≠ 0 →
      config.enable_vaapi ≠ 0 → (opened HAVE_HWDEC config env w).va = env.vaGetDisplay) ∧
    (w.display.va = NULL →
      (env.XOpenDisplay = NULL ∨ HAVE_HWDEC = false ∨ config.enable_hwdec = 0 ∨
        config.enable_vaapi = 0) →
      ∀ va, Call.vaTerminate va ∉
        teardown_calls HAVE_HWDEC config (opened HAVE_HWDEC config env w)) := by
  refine ⟨?_, ?_, ?_, ?_, ?_, ?_⟩
  · intro dev h
    rw [vdp_device_destroy_mem_teardown] at h
    exact ⟨h.2.2.2.1, h.2.2.2.2.1, h.2.2.2.2.2⟩
  · intro h0 hfail dev hmem
    rw [vdp_device_destroy_mem_teardown] at hmem
    obtain ⟨hH, hh, hv, hd, -, -⟩ := hmem
    rw [opened_vdp_device_destroy, h0] at hd
    rw [opened_vdp_get_proc_address] at hfail
    split_ifs at hd with hc
    · obtain ⟨hx, -, -, -, hst, hg⟩ := hc
      rw [if_pos ⟨hx, hH, hh, hv⟩] at hfail
      rcases hfail with h | h | h | h | h | h
      · exact hx h
      · rw [hH] at h
        exact absurd h (by decide)
      · exact hh h
      · exact hv h
      · exact h hst
      · exact hg h
    · exact hd rfl
  · intro hx hH hfail
    subst hH
    rcases (opened_vdpau_available config env w hx).2 with h0 | h1
    · exact h0
    · have h := (opened_vdpau_available config env w hx).1.1 h1
      rw [opened_vdp_get_proc_address, if_pos ⟨hx, rfl, h.1, h.2.1⟩] at hfail
      rcases hfail with hf | hf
      · exact absurd h.2.2.1 hf
      · exact absurd hf h.2.2.2.1
  · intro va
    exact vaTerminate_mem_teardown _ _ _ _
  · intro hx hH hh hv
    rw [opened_va, if_pos ⟨hx, hH, hh, hv⟩]
  · intro h0 hno va hmem
    rw [vaTerminate_mem_teardown] at hmem
    obtain ⟨hH, hh, hv, hva, -⟩ := hmem
    rw [opened_va] at hva
    split_ifs at hva with hc
    · obtain ⟨hx, -, -, -⟩ := hc
      rcases hno with h | h | h | h
      · exact hx h
      · rw [hH] at h
        exact absurd h (by decide)
      · exact hh h
      · exact hv h
    · exact hva h0

/-- C6 as amended, at a concrete run: VDPAU is enabled and device creation fails; the
teardown makes no `vdp_device_destroy` call. -/
theorem decode_teardown_calls_witness :
    Call.vdp_device_destroy 4294967295 ∉
      teardown_calls true config_vdpau (opened true config_vdpau env_x_only world_zero) :=
  (decode_teardown_calls true config_vdpau env_x_only world_zero).2.1 rfl
    (Or.inr (Or.inr (Or.inr (Or.inr (Or.inl (by decide)))))) 4294967295

/-- C7 fails as stated.  After a failed open from the initial state, `tables_close_display`
passes the null connection handle to `XFreeCursor` and to `XCloseDisplay` and closes
descriptor 0, which `tables_open_display` never opened; after a successful open in which
`open` returned -1 it calls `close(-1)`. -/
theorem close_display_unguarded :
    (tables_open_display true config_plain env_nothing world_zero).2 = 1 ∧
    Call.XFreeCursor NULL 0 ∈
      teardown_calls true config_plain (opened true config_plain env_nothing world_zero) ∧
    Call.XCloseDisplay NULL ∈
      teardown_calls true config_plain (opened true config_plain env_nothing world_zero) ∧
    Call.close 0 ∈
      teardown_calls true config_plain (opened true config_plain env_nothing world_zero) ∧
    (tables_open_display true config_plain env_x_only world_zero).2 = 0 ∧
    Call.close (-1) ∈
      teardown_calls true config_plain (opened true config_plain env_x_only world_zero) := by
  have hfail : opened true config_plain env_nothing world_zero =
      (pthread_mutex_unlock (open_display_connect env_nothing world_zero)).display :=
    opened_fail _ _ _ _ rfl
  have hx0 := opened_x true config_plain env_nothing world_zero
  have hfd0 : (opened true config_plain env_nothing world_zero).dri_fd = 0 := by
    rw [hfail, pthread_mutex_unlock_dri_fd, open_display_connect_dri_fd]
    rfl
  have hc0 : (opened true config_plain env_nothing world_zero).transparent_cursor = 0 := by
    rw [hfail, pthread_mutex_unlock_transparent_cursor,
      open_display_connect_transparent_cursor]
    rfl
  have hfd1 := opened_dri_fd true config_plain env_x_only world_zero (by decide)
  refine ⟨?_, ?_, ?_, ?_, ?_, ?_⟩
  · rw [open_display_fail _ _ _ _ rfl]
  · rw [teardown_calls_eq, hx0, hc0]
    simp [env_nothing]
  · rw [teardown_calls_eq, hx0]
    simp [env_nothing]
  · rw [teardown_calls_eq, hfd0]
    simp
  · rw [open_display_ok _ _ _ _ (by decide)]
  · rw [teardown_calls_eq, hfd1]
    simp [env_x_only, env_nothing]

/-- C7 as amended: after a successful `tables_open_display` (status 0), the calls of
`tables_close_display` are, in order, `pthread_mutex_lock`, `screensaver_disconnect`, the
guarded decode-backend calls (`vaTerminate`, `vdp_device_destroy`), then unconditionally
`close` on the descriptor `open` returned (also when that is -1), `XFreeCursor` and
`XCloseDisplay` on the non-null connection handle `XOpenDisplay` returned, with the cursor
`XCreatePixmapCursor` returned, and the three lock release calls; so exactly one `close`,
one `XFreeCursor` and one `XCloseDisplay` call is made and no other. -/
theorem close_display_releases_opened (HAVE_HWDEC : Bool) (config : Config) (env : Env)
    (w : World) (hok : (tables_open_display HAVE_HWDEC config env w).2 = 0) :
    env.XOpenDisplay ≠ NULL ∧
    teardown_calls HAVE_HWDEC config (opened HAVE_HWDEC config env w) =
      [Call.pthread_mutex_lock, Call.screensaver_disconnect] ++
        (if HAVE_HWDEC = true ∧ config.enable_hwdec ≠ 0 ∧ config.enable_vaapi ≠ 0 ∧
            (opened HAVE_HWDEC config env w).va ≠ NULL
          then [Call.vaTerminate (opened HAVE_HWDEC config env w).va] else []) ++
        (if HAVE_HWDEC = true ∧ config.enable_hwdec ≠ 0 ∧ config.enable_vdpau ≠ 0 ∧
            (opened HAVE_HWDEC config env w).vdp_device_destroy ≠ NULL ∧
            (opened HAVE_HWDEC config env w).vdp_device ≠ VDP_INVALID_HANDLE
          then [Call.vdp_device_destroy (opened HAVE_HWDEC config env w).vdp_device]
          else []) ++
        [Call.close env.open_dri_card0,
          Call.XFreeCursor env.XOpenDisplay env.XCreatePixmapCursor,
          Call.XCloseDisplay env.XOpenDisplay, Call.pthread_mutex_unlock,
          Call.pthread_mutex_destroy, Call.pthread_mutexattr_destroy] ∧
    (∀ fd, Call.close fd ∈
        teardown_calls HAVE_HWDEC config (opened HAVE_HWDEC config env w) ↔
      fd = env.open_dri_card0) ∧
    (∀ x c, Call.XFreeCursor x c ∈
        teardown_calls HAVE_HWDEC config (opened HAVE_HWDEC config env w) ↔
      x = env.XOpenDisplay ∧ c = env.XCreatePixmapCursor) ∧
    (∀ x, Call.XCloseDisplay x ∈
        teardown_calls HAVE_HWDEC config (opened HAVE_HWDEC config env w) ↔
      x = env.XOpenDisplay) ∧
    (teardown_calls HAVE_HWDEC config (opened HAVE_HWDEC config env w)).count
      (Call.close env.open_dri_card0) = 1 ∧
    (teardown_calls HAVE_HWDEC config (opened HAVE_HWDEC config env w)).count
      (Call.XFreeCursor env.XOpenDisplay env.XCreatePixmapCursor) = 1 ∧
    (teardown_calls HAVE_HWDEC config (opened HAVE_HWDEC config env w)).count
      (Call.XCloseDisplay env.XOpenDisplay) = 1 := by
  have hx : env.XOpenDisplay ≠ NULL := by
    intro h
    rw [open_display_fail _ _ _ _ h] at hok
    exact absurd hok (by norm_num : (1 : Int) ≠ 0)
  have h1 := opened_x HAVE_HWDEC config env w
  have h2 := opened_dri_fd HAVE_HWDEC config env w hx
  have h3 := opened_transparent_cursor HAVE_HWDEC config env w hx
  refine ⟨hx, ?_, ?_, ?_, ?_, ?_, ?_, ?_⟩
  · rw [teardown_calls_eq, h1, h2, h3]
  · intro fd
    rw [teardown_calls_eq, h1, h2, h3]
    split_ifs <;> simp
  · intro x c
    rw [teardown_calls_eq, h1, h2, h3]
    split_ifs <;> simp
  · intro x
    rw [teardown_calls_eq, h1, h2, h3]
    split_ifs <;> simp
  · rw [teardown_calls_eq, h1, h2, h3]
    split_ifs <;> simp [List.count_cons]
  · rw [teardown_calls_eq, h1, h2, h3]
    split_ifs <;> simp [List.count_cons]
  · rw [teardown_calls_eq, h1, h2, h3]
    split_ifs <;> simp [List.count_cons]

/-- C7 as amended, at a concrete run: the display opens with handle 5 and no DRI device;
the teardown makes exactly these calls. -/
theorem close_display_releases_opened_witness :
    teardown_calls true config_plain (opened true config_plain env_x_only world_zero) =
      [Call.pthread_mutex_lock, Call.screensaver_disconnect, Call.close (-1),
        Call.XFreeCursor 5 0, Call.XCloseDisplay 5, Call.pthread_mutex_unlock,
        Call.pthread_mutex_destroy, Call.pthread_mutexattr_destroy] :=
  (close_display_releases_opened true config_plain env_x_only world_zero
    (by rw [open_display_ok _ _ _ _ (by decide)])).2.1

/-! ## Display: minimum geometry -/

end Tables
